import Mathlib

/-! Brayns-UC-4D: the tesseract plugin (`src/plugin/4DPlugin.cpp`)

A shallow embedding of `Basic4DPlugin`: the interpolator `_computeCoordinates`,
the geometry builder `_createGeometry`, and the animation driver `init` /
`preRender`.

Conventions of the embedding

* `float` values are modelled by exact rationals (`ℚ`): `0.25f` is `1/4`,
  `0.1f` is `1/10`, `float(frame) / 360.f` is `frame / 360`.  Rounding of the
  IEEE single-precision operations is not modelled.
* A C++ execution with undefined behaviour (falling off the end of
  `_computeCoordinates`, dereferencing a null `_model`, reading an array out of
  bounds) is modelled by the result `none`.
* The host's model container (`brayns::Model`) is not part of the repository;
  its primitive collections are modelled as total maps from material id to a
  collection, the absent key being the empty collection (the behaviour of
  `std::map::operator[]`).
-/

/-- A 3-component coordinate (`brayns::Vector3f`). -/
structure Vector3f where
  x : ℚ
  y : ℚ
  z : ℚ
  deriving DecidableEq

instance : Inhabited Vector3f := ⟨⟨0, 0, 0⟩⟩

/-- An index triple of a triangle (`brayns::Vector3ui`); the indices stay below
32, far from the `uint32_t` wrap-around. -/
structure Vector3ui where
  x : Nat
  y : Nat
  z : Nat
  deriving DecidableEq

/-- Modelled from the spec: the host's sphere primitive (the type declaration is
not under `src/`): "center + fixed radius". -/
structure Sphere where
  center : Vector3f
  radius : ℚ
  deriving DecidableEq

/-- Modelled from the spec: the host's cylinder primitive (the type declaration
is not under `src/`): "two endpoints + fixed radius", in the order of the
brace initialiser `{{t...}, {u...}, radius}`. -/
structure Cylinder where
  first : Vector3f
  second : Vector3f
  radius : ℚ
  deriving DecidableEq

/-- Modelled from the spec: the host's indexed triangle mesh (the type
declaration is not under `src/`): a vertex list and a list of index triples,
the two members the plugin touches. -/
structure TrianglesMesh where
  vertices : List Vector3f
  indices : List Vector3ui
  deriving DecidableEq

/-- Modelled from the spec: the host's model container (`brayns::Model`, not
under `src/`): per material id a sphere list, a cylinder list and a triangle
mesh. -/
structure Model where
  spheres : Nat → List Sphere
  cylinders : Nat → List Cylinder
  trianglesMeshes : Nat → TrianglesMesh

namespace Model

/-- Modelled from the spec: `Model::addSphere(materialId, sphere)` appends the
sphere to the list of that material. -/
def addSphere (m : Model) (materialId : Nat) (sphere : Sphere) : Model :=
  { m with spheres := Function.update m.spheres materialId (m.spheres materialId ++ [sphere]) }

/-- Modelled from the spec: `Model::addCylinder(materialId, cylinder)` appends
the cylinder to the list of that material. -/
def addCylinder (m : Model) (materialId : Nat) (cylinder : Cylinder) : Model :=
  { m with
    cylinders := Function.update m.cylinders materialId (m.cylinders materialId ++ [cylinder]) }

/-- A freshly created model: no primitive of any material. -/
def empty : Model :=
  { spheres := fun _ => [], cylinders := fun _ => [], trianglesMeshes := fun _ => ⟨[], []⟩ }

end Model

def VERTEX_MATERIAL_ID : Nat := 0
def EDGE_MATERIAL_ID : Nat := 1
def FACE_MATERIAL_ID : Nat := 2

/-- The 16 base corners: inner cube (0..7) and outer cube (8..15). -/
def tesseract : List Vector3f :=
  [⟨-1/2, -1/2, -1/2⟩, ⟨1/2, -1/2, -1/2⟩, ⟨1/2, 1/2, -1/2⟩, ⟨-1/2, 1/2, -1/2⟩,
   ⟨-1/2, -1/2, 1/2⟩, ⟨1/2, -1/2, 1/2⟩, ⟨1/2, 1/2, 1/2⟩, ⟨-1/2, 1/2, 1/2⟩,
   ⟨-1, -1, -1⟩, ⟨1, -1, -1⟩, ⟨1, 1, -1⟩, ⟨-1, 1, -1⟩,
   ⟨-1, -1, 1⟩, ⟨1, -1, 1⟩, ⟨1, 1, 1⟩, ⟨-1, 1, 1⟩]

/-- The 32 edge index pairs (`joints` of `_createGeometry`). -/
def joints : List (Nat × Nat) :=
  [(0, 1), (1, 2), (2, 3), (3, 0), (0, 4), (1, 5), (2, 6),
   (3, 7), (4, 5), (5, 6), (6, 7), (7, 4), (0, 8), (1, 9),
   (2, 10), (3, 11), (4, 12), (5, 13), (6, 14), (7, 15), (8, 9),
   (9, 10), (10, 11), (11, 8), (8, 12), (9, 13), (10, 14), (11, 15),
   (12, 13), (13, 14), (14, 15), (15, 12)]

/-- The plugin object.  `_angle` and `_model` are the members of the class
(`_model = none` is the null pointer); `log` collects the lines written through
`PLUGIN_ERROR`; `builds` is an instrumentation counter of the calls of
`_createGeometry` (it has no counterpart in the source). -/
structure Basic4DPlugin where
  _angle : ℚ := 0
  _model : Option Model := none
  log : List String := []
  builds : Nat := 0

namespace Basic4DPlugin

/-- Return expression of the first branch of `_computeCoordinates`. -/
def branch0 (a : ℚ) (p1 p4 : Vector3f) : Vector3f :=
  ⟨p4.x + (p1.x - p4.x) * a * 4,
   p4.y + (p1.y - p4.y) * a * 4,
   p4.z + (p1.z - p4.z) * a * 4⟩

/-- Return expression of the second branch of `_computeCoordinates`. -/
def branch1 (a : ℚ) (p1 p2 : Vector3f) : Vector3f :=
  ⟨p1.x + (p2.x - p1.x) * (a - 1/4) * 4,
   p1.y + (p2.y - p1.y) * (a - 1/4) * 4,
   p1.z + (p2.z - p1.z) * (a - 1/4) * 4⟩

/-- Return expression of the third branch of `_computeCoordinates`. -/
def branch2 (a : ℚ) (p2 p3 : Vector3f) : Vector3f :=
  ⟨p2.x + (p3.x - p2.x) * (a - 1/2) * 4,
   p2.y + (p3.y - p2.y) * (a - 1/2) * 4,
   p2.z + (p3.z - p2.z) * (a - 1/2) * 4⟩

/-- Return expression of the fourth branch of `_computeCoordinates`. -/
def branch3 (a : ℚ) (p3 p4 : Vector3f) : Vector3f :=
  ⟨p3.x + (p4.x - p3.x) * (a - 3/4) * 4,
   p3.y + (p4.y - p3.y) * (a - 3/4) * 4,
   p3.z + (p4.z - p3.z) * (a - 3/4) * 4⟩

/-- `Basic4DPlugin::_computeCoordinates`: four guarded returns on `_angle`;
when no guard holds the function flows off its end (`none`). -/
def _computeCoordinates (s : Basic4DPlugin) (p1 p2 p3 p4 : Vector3f) : Option Vector3f :=
  if s._angle ≥ 0 ∧ s._angle < 1/4 then some (branch0 s._angle p1 p4)
  else if s._angle ≥ 1/4 ∧ s._angle < 1/2 then some (branch1 s._angle p1 p2)
  else if s._angle ≥ 1/2 ∧ s._angle < 3/4 then some (branch2 s._angle p2 p3)
  else if s._angle ≥ 3/4 ∧ s._angle < 1 then some (branch3 s._angle p3 p4)
  else none

/-- Read of `tesseract[i]` at a literal index. -/
def T (i : Nat) : Vector3f := tesseract.getD i default

/-- The local array `vertices[16]` of `_createGeometry`: sixteen calls of
`_computeCoordinates`, in the order and with the arguments of the source. -/
def vertices (s : Basic4DPlugin) : Option (List Vector3f) :=
  [s._computeCoordinates (T 8) (T 9) (T 1) (T 0),
   s._computeCoordinates (T 0) (T 8) (T 9) (T 1),
   s._computeCoordinates (T 3) (T 11) (T 10) (T 2),
   s._computeCoordinates (T 11) (T 10) (T 2) (T 3),
   s._computeCoordinates (T 12) (T 13) (T 5) (T 4),
   s._computeCoordinates (T 4) (T 12) (T 13) (T 5),
   s._computeCoordinates (T 7) (T 15) (T 14) (T 6),
   s._computeCoordinates (T 15) (T 14) (T 6) (T 7),
   s._computeCoordinates (T 9) (T 1) (T 0) (T 8),
   s._computeCoordinates (T 1) (T 0) (T 8) (T 9),
   s._computeCoordinates (T 2) (T 3) (T 11) (T 10),
   s._computeCoordinates (T 10) (T 2) (T 3) (T 11),
   s._computeCoordinates (T 13) (T 5) (T 4) (T 12),
   s._computeCoordinates (T 5) (T 4) (T 12) (T 13),
   s._computeCoordinates (T 6) (T 7) (T 15) (T 14),
   s._computeCoordinates (T 14) (T 6) (T 7) (T 15)].mapM id

/-- The sphere loop: `for (i = 0; i < 16; ++i) addSphere(VERTEX_MATERIAL_ID, ..)`. -/
def sphereLoop (vs : List Vector3f) (radius : ℚ) (m : Model) : Option Model :=
  (List.range 16).foldlM
    (fun m i => do
      let t ← vs[i]?
      pure (m.addSphere VERTEX_MATERIAL_ID ⟨⟨t.x, t.y, t.z⟩, radius⟩)) m

/-- The cylinder loop: `for (i = 0; i < 32; ++i) addCylinder(EDGE_MATERIAL_ID, ..)`. -/
def cylinderLoop (vs : List Vector3f) (radius : ℚ) (m : Model) : Option Model :=
  (List.range 32).foldlM
    (fun m i => do
      let j ← joints[i]?
      let t ← vs[j.1]?
      let u ← vs[j.2]?
      pure (m.addCylinder EDGE_MATERIAL_ID ⟨⟨t.x, t.y, t.z⟩, ⟨u.x, u.y, u.z⟩, radius⟩)) m

/-- The mesh loop: `for (i = 0; i < 32; i += 4)`, carrying the mesh and the
running `index`; `i` takes the values `0, 4, .., 28`. -/
def meshLoop (vs : List Vector3f) (meshes : TrianglesMesh) (index : Nat) :
    Option (TrianglesMesh × Nat) :=
  ((List.range 8).map (fun k => 4 * k)).foldlM
    (fun (acc : TrianglesMesh × Nat) i => do
      let j0 ← joints[i]?
      let j1 ← joints[i + 1]?
      let j2 ← joints[i + 2]?
      let j3 ← joints[i + 3]?
      let t ← vs[j0.1]?
      let u ← vs[j1.1]?
      let v ← vs[j2.1]?
      let w ← vs[j3.1]?
      let meshes := acc.1
      let index := acc.2
      let meshes := { meshes with vertices := meshes.vertices ++ [t] }
      let meshes := { meshes with vertices := meshes.vertices ++ [u] }
      let meshes := { meshes with vertices := meshes.vertices ++ [v] }
      let meshes := { meshes with vertices := meshes.vertices ++ [w] }
      let meshes := { meshes with indices := meshes.indices ++ [Vector3ui.mk index (index + 1) (index + 2)] }
      let meshes := { meshes with indices := meshes.indices ++ [Vector3ui.mk (index + 2) (index + 3) index] }
      pure (meshes, index + 4)) (meshes, index)

/-- `Basic4DPlugin::_createGeometry`.  The null test only writes a log line; it
does not return, so a null `_model` is dereferenced right after (`none`). -/
def _createGeometry (s : Basic4DPlugin) : Option Basic4DPlugin :=
  let s := { s with builds := s.builds + 1 }
  let s :=
    if s._model.isNone then
      { s with log := s.log ++ ["Cannot create geometry on non-existant model"] }
    else s
  match s._model with
  | none => none
  | some m => do
    -- spheres.clear(); cylinders.clear();
    let m := { m with spheres := Function.update m.spheres VERTEX_MATERIAL_ID [] }
    let m := { m with cylinders := Function.update m.cylinders EDGE_MATERIAL_ID [] }
    let vs ← s.vertices
    let radius : ℚ := 1/10
    let m ← sphereLoop vs radius m
    let radius : ℚ := 1/20
    let m ← cylinderLoop vs radius m
    -- meshes.indices.clear(); meshes.vertices.clear();
    let meshes := m.trianglesMeshes FACE_MATERIAL_ID
    let meshes := { meshes with indices := [] }
    let meshes := { meshes with vertices := [] }
    let r ← meshLoop vs meshes 0
    let m := { m with trianglesMeshes := Function.update m.trianglesMeshes FACE_MATERIAL_ID r.1 }
    pure { s with _model := some m }

/-- `Basic4DPlugin::init`: `created` is what `scene.createModel()` returned
(`none`: the null pointer, for which the function throws).  Materials and the
clock settings (end 360, dt 1) are host state outside the embedding. -/
def init (s : Basic4DPlugin) (created : Option Model) : Option Basic4DPlugin :=
  match created with
  | none => none
  | some model => _createGeometry { s with _model := some model }

/-- `Basic4DPlugin::preRender`: `frame` is the value read from the animation
clock (`ap.getFrame()`).  The geometry is rebuilt before `_angle` is assigned. -/
def preRender (s : Basic4DPlugin) (frame : Nat) : Option Basic4DPlugin :=
  let angle : ℚ := (frame : ℚ) / 360
  if angle ≠ s._angle then do
    let s ← _createGeometry s
    pure { s with _angle := angle }
  else
    pure { s with _angle := angle }

/-- The host's render loop: one `preRender` per frame value, in order. -/
def ticks (s : Basic4DPlugin) (frames : List Nat) : Option Basic4DPlugin :=
  frames.foldlM preRender s

/-- The primitive collections the plugin owns: the vertex-material spheres, the
edge-material cylinders and the face-material mesh of the bound model. -/
def primitives (s : Basic4DPlugin) : Option (List Sphere × List Cylinder × TrianglesMesh) :=
  s._model.map fun m =>
    (m.spheres VERTEX_MATERIAL_ID, m.cylinders EDGE_MATERIAL_ID,
      m.trianglesMeshes FACE_MATERIAL_ID)

/-! ## Closed forms and specification-side definitions -/

/-- The value `_computeCoordinates` returns for an angle in [0,1), as a total
function (outside that range it continues the last branch; it is only used
under the range hypothesis). -/
def interp (a : ℚ) (p1 p2 p3 p4 : Vector3f) : Vector3f :=
  if a < 1/4 then branch0 a p1 p4
  else if a < 1/2 then branch1 a p1 p2
  else if a < 3/4 then branch2 a p2 p3
  else branch3 a p3 p4

/-- The sixteen entries of `vertices` for an angle in [0,1). -/
def vertexList (a : ℚ) : List Vector3f :=
  [interp a (T 8) (T 9) (T 1) (T 0),
   interp a (T 0) (T 8) (T 9) (T 1),
   interp a (T 3) (T 11) (T 10) (T 2),
   interp a (T 11) (T 10) (T 2) (T 3),
   interp a (T 12) (T 13) (T 5) (T 4),
   interp a (T 4) (T 12) (T 13) (T 5),
   interp a (T 7) (T 15) (T 14) (T 6),
   interp a (T 15) (T 14) (T 6) (T 7),
   interp a (T 9) (T 1) (T 0) (T 8),
   interp a (T 1) (T 0) (T 8) (T 9),
   interp a (T 2) (T 3) (T 11) (T 10),
   interp a (T 10) (T 2) (T 3) (T 11),
   interp a (T 13) (T 5) (T 4) (T 12),
   interp a (T 5) (T 4) (T 12) (T 13),
   interp a (T 6) (T 7) (T 15) (T 14),
   interp a (T 14) (T 6) (T 7) (T 15)]

/-- What the cylinder loop appends: one cylinder per entry of `joints`. -/
def cylinderList (vs : List Vector3f) (r : ℚ) : List Cylinder :=
  joints.map fun j => ⟨vs.getD j.1 default, vs.getD j.2 default, r⟩

/-- What the mesh loop appends to the mesh vertices: the vertex at the first
index of every entry of `joints`. -/
def meshVertexList (vs : List Vector3f) : List Vector3f :=
  joints.map fun j => vs.getD j.1 default

/-- What the mesh loop appends to the mesh indices: two triangles per group. -/
def triangleList : List Vector3ui :=
  (List.range 8).flatMap fun g => [⟨4 * g, 4 * g + 1, 4 * g + 2⟩, ⟨4 * g + 2, 4 * g + 3, 4 * g⟩]

/-- The model `_createGeometry` leaves for an angle `a` in [0,1) when it starts
from the model `m`. -/
def built (a : ℚ) (m : Model) : Model :=
  { spheres := Function.update m.spheres VERTEX_MATERIAL_ID
      ((vertexList a).map fun v => ⟨v, 1/10⟩)
    cylinders := Function.update m.cylinders EDGE_MATERIAL_ID (cylinderList (vertexList a) (1/20))
    trianglesMeshes := Function.update m.trianglesMeshes FACE_MATERIAL_ID
      ⟨meshVertexList (vertexList a), triangleList⟩ }

/-- The interpolation table of the specification: the two points joined in
quarter `k`. -/
def specEndpoints (k : Nat) (p1 p2 p3 p4 : Vector3f) : Vector3f × Vector3f :=
  match k with
  | 0 => (p4, p1)
  | 1 => (p1, p2)
  | 2 => (p2, p3)
  | _ => (p3, p4)

/-- The linear rule of the specification in quarter `k`, per coordinate:
`a + (b - a) * (phase - k/4) * 4`. -/
def specQuarter (phase : ℚ) (k : Nat) (a b : Vector3f) : Vector3f :=
  ⟨a.x + (b.x - a.x) * (phase - (k : ℚ) / 4) * 4,
   a.y + (b.y - a.y) * (phase - (k : ℚ) / 4) * 4,
   a.z + (b.z - a.z) * (phase - (k : ℚ) / 4) * 4⟩

/-- Number of distinct phase values in a sequence of frames. -/
def distinctPhases (frames : List Nat) : Nat :=
  ((frames.map fun f : Nat => (f : ℚ) / 360).dedup).length

/-- Number of positions of a phase sequence whose phase differs from the one
before it, `last` standing before the first. -/
def phaseChanges (last : ℚ) : List ℚ → Nat
  | [] => 0
  | p :: ps => (if p = last then 0 else 1) + phaseChanges p ps

/-- Number of maximal runs of equal consecutive values of a phase sequence. -/
def phaseRuns : List ℚ → Nat
  | [] => 0
  | p :: ps => 1 + phaseChanges p ps

/-- The slot map of the quarter turn (specification side): slot `i` at phase
`a + 1/4` shows what slot `sigma[i]` shows at phase `a`. -/
def sigma : List Nat := [8, 0, 3, 11, 12, 4, 7, 15, 9, 1, 2, 10, 13, 5, 6, 14]

/-- Application of `sigma` to a slot index. -/
def sigmaAt (i : Nat) : Nat := sigma.getD i 0

/-- All three coordinates lie in [-1, 1]. -/
def inUnitCube (v : Vector3f) : Prop :=
  (-1 ≤ v.x ∧ v.x ≤ 1) ∧ (-1 ≤ v.y ∧ v.y ≤ 1) ∧ (-1 ≤ v.z ∧ v.z ≤ 1)

instance (v : Vector3f) : Decidable (inUnitCube v) := by
  unfold inUnitCube
  infer_instance

/-- The index quadruples `(t, u, v, w)` the mesh loop reads from `joints`: for
`i = 0, 4, .., 28` the first index of the pairs `i`, `i + 1`, `i + 2`, `i + 3`. -/
def faceQuadruples : List (Nat × Nat × Nat × Nat) :=
  ((List.range 8).map (fun k => 4 * k)).map fun i =>
    ((joints.getD i default).1, (joints.getD (i + 1) default).1,
      (joints.getD (i + 2) default).1, (joints.getD (i + 3) default).1)

/-- An edge as an unordered pair: smaller index first. -/
def unordered (e : Nat × Nat) : Nat × Nat := (min e.1 e.2, max e.1 e.2)

/-- Number of entries of `joints` that contain the slot `i`. -/
def degree (i : Nat) : Nat := (joints.filter fun e => e.1 = i ∨ e.2 = i).length

/-- Every coordinate of `r` is within `ε` of the same coordinate of `p`. -/
def closeTo (ε : ℚ) (r p : Vector3f) : Prop :=
  |r.x - p.x| < ε ∧ |r.y - p.y| < ε ∧ |r.z - p.z| < ε

instance (ε : ℚ) (r p : Vector3f) : Decidable (closeTo ε r p) := by
  unfold closeTo
  infer_instance

/-- A model that already holds a sphere, a cylinder and mesh data. -/
def sampleModel : Model :=
  { spheres := fun _ => [⟨⟨9, 9, 9⟩, 1⟩]
    cylinders := fun _ => [⟨⟨0, 0, 0⟩, ⟨9, 9, 9⟩, 1⟩]
    trianglesMeshes := fun _ => ⟨[⟨7, 7, 7⟩], [⟨0, 0, 0⟩]⟩ }

/-- A plugin bound to `sampleModel` with stored phase 3/8. -/
def sampleState : Basic4DPlugin :=
  { _angle := 3/8, _model := some sampleModel }

end Basic4DPlugin

/-! ## Theorems -/

namespace Basic4DPlugin

/-! ### Auxiliary lemmas -/

theorem computeCoordinates_eq (s : Basic4DPlugin) (p1 p2 p3 p4 : Vector3f)
    (h0 : 0 ≤ s._angle) (h1 : s._angle < 1) :
    s._computeCoordinates p1 p2 p3 p4 = some (interp s._angle p1 p2 p3 p4) := by
  unfold _computeCoordinates interp
  by_cases c0 : s._angle < 1/4
  · rw [if_pos (And.intro h0 c0), if_pos c0]
  · have d0 : ¬ (s._angle ≥ 0 ∧ s._angle < 1/4) := fun h => c0 h.2
    rw [if_neg d0, if_neg c0]
    by_cases c1 : s._angle < 1/2
    · rw [if_pos (And.intro (not_lt.mp c0) c1), if_pos c1]
    · have d1 : ¬ (s._angle ≥ 1/4 ∧ s._angle < 1/2) := fun h => c1 h.2
      rw [if_neg d1, if_neg c1]
      by_cases c2 : s._angle < 3/4
      · rw [if_pos (And.intro (not_lt.mp c1) c2), if_pos c2]
      · have d2 : ¬ (s._angle ≥ 1/2 ∧ s._angle < 3/4) := fun h => c2 h.2
        rw [if_neg d2, if_neg c2, if_pos (And.intro (not_lt.mp c2) h1)]

theorem vertices_eq (s : Basic4DPlugin) (h0 : 0 ≤ s._angle) (h1 : s._angle < 1) :
    s.vertices = some (vertexList s._angle) := by
  simp only [vertices, computeCoordinates_eq s _ _ _ _ h0 h1]
  rfl

theorem sphereLoop_eq (v0 v1 v2 v3 v4 v5 v6 v7 v8 v9 v10 v11 v12 v13 v14 v15 : Vector3f)
    (r : ℚ) (m : Model) :
    sphereLoop [v0, v1, v2, v3, v4, v5, v6, v7, v8, v9, v10, v11, v12, v13, v14, v15] r m =
      some { m with spheres := (Function.update m.spheres VERTEX_MATERIAL_ID
        (m.spheres VERTEX_MATERIAL_ID ++ [⟨v0, r⟩, ⟨v1, r⟩, ⟨v2, r⟩, ⟨v3, r⟩, ⟨v4, r⟩, ⟨v5, r⟩,
          ⟨v6, r⟩, ⟨v7, r⟩, ⟨v8, r⟩, ⟨v9, r⟩, ⟨v10, r⟩, ⟨v11, r⟩, ⟨v12, r⟩, ⟨v13, r⟩, ⟨v14, r⟩,
          ⟨v15, r⟩])) } := by
  simp [sphereLoop, List.range, List.range.loop, Model.addSphere]

theorem cylinderLoop_eq (v0 v1 v2 v3 v4 v5 v6 v7 v8 v9 v10 v11 v12 v13 v14 v15 : Vector3f)
    (r : ℚ) (m : Model) :
    cylinderLoop [v0, v1, v2, v3, v4, v5, v6, v7, v8, v9, v10, v11, v12, v13, v14, v15] r m =
      some { m with cylinders := (Function.update m.cylinders EDGE_MATERIAL_ID
        (m.cylinders EDGE_MATERIAL_ID ++ cylinderList [v0, v1, v2, v3, v4, v5, v6, v7, v8, v9, v10, v11, v12, v13, v14, v15] r)) } := by
  simp [cylinderLoop, cylinderList, joints, List.range, List.range.loop, Model.addCylinder]

theorem meshLoop_eq (v0 v1 v2 v3 v4 v5 v6 v7 v8 v9 v10 v11 v12 v13 v14 v15 : Vector3f)
    (mesh : TrianglesMesh) :
    meshLoop [v0, v1, v2, v3, v4, v5, v6, v7, v8, v9, v10, v11, v12, v13, v14, v15] mesh 0 =
      some (⟨mesh.vertices ++ meshVertexList [v0, v1, v2, v3, v4, v5, v6, v7, v8, v9, v10, v11, v12, v13, v14, v15], mesh.indices ++ triangleList⟩, 32) := by
  simp [meshLoop, meshVertexList, triangleList, joints, List.range, List.range.loop]

theorem sphereLoop_vertexList (a r : ℚ) (m : Model) :
    sphereLoop (vertexList a) r m =
      some { m with spheres := (Function.update m.spheres VERTEX_MATERIAL_ID
        (m.spheres VERTEX_MATERIAL_ID ++ (vertexList a).map fun v => ⟨v, r⟩)) } :=
  sphereLoop_eq _ _ _ _ _ _ _ _ _ _ _ _ _ _ _ _ r m

theorem cylinderLoop_vertexList (a r : ℚ) (m : Model) :
    cylinderLoop (vertexList a) r m =
      some { m with cylinders := (Function.update m.cylinders EDGE_MATERIAL_ID
        (m.cylinders EDGE_MATERIAL_ID ++ cylinderList (vertexList a) r)) } :=
  cylinderLoop_eq _ _ _ _ _ _ _ _ _ _ _ _ _ _ _ _ r m

theorem meshLoop_vertexList (a : ℚ) (mesh : TrianglesMesh) :
    meshLoop (vertexList a) mesh 0 =
      some (⟨mesh.vertices ++ meshVertexList (vertexList a), mesh.indices ++ triangleList⟩, 32) :=
  meshLoop_eq _ _ _ _ _ _ _ _ _ _ _ _ _ _ _ _ mesh

theorem createGeometry_eq (s : Basic4DPlugin) (m : Model) (hm : s._model = some m)
    (h0 : 0 ≤ s._angle) (h1 : s._angle < 1) :
    _createGeometry s =
      some { s with builds := s.builds + 1, _model := some (built s._angle m) } := by
  obtain ⟨a, mo, lg, b⟩ := s
  simp only at hm h0 h1
  subst hm
  have hv : vertices ⟨a, some m, lg, b + 1⟩ = some (vertexList a) := vertices_eq _ h0 h1
  unfold _createGeometry
  simp only [Option.isNone_some, Bool.false_eq_true, if_false, hv, Option.bind_eq_bind,
    Option.some_bind, sphereLoop_vertexList, cylinderLoop_vertexList, meshLoop_vertexList, built]
  simp

theorem built_spheres (a : ℚ) (m : Model) :
    (built a m).spheres VERTEX_MATERIAL_ID = (vertexList a).map fun v => ⟨v, 1/10⟩ := by
  simp [built]

theorem built_cylinders (a : ℚ) (m : Model) :
    (built a m).cylinders EDGE_MATERIAL_ID = cylinderList (vertexList a) (1/20) := by
  simp [built]

theorem built_mesh (a : ℚ) (m : Model) :
    (built a m).trianglesMeshes FACE_MATERIAL_ID =
      ⟨meshVertexList (vertexList a), triangleList⟩ := by
  simp [built]

theorem joints_bound : ∀ e ∈ joints, e.1 < 16 ∧ e.2 < 16 := by decide

theorem joints_get (i : Nat) (h : i < 32) :
    ∃ e, joints[i]? = some e ∧ e.1 < 16 ∧ e.2 < 16 := by
  have hl : i < joints.length := h
  exact ⟨joints[i], List.getElem?_eq_getElem hl, joints_bound _ (List.getElem_mem hl)⟩

theorem vertexList_get (a : ℚ) (i : Nat) (h : i < 16) :
    (vertexList a)[i]? = some ((vertexList a).getD i default) := by
  have hl : i < (vertexList a).length := h
  rw [List.getD_eq_getElem?_getD, List.getElem?_eq_getElem hl]
  rfl

theorem triangleList_groups : ∀ g, g < 8 →
    triangleList[2 * g]? = some ⟨4 * g, 4 * g + 1, 4 * g + 2⟩ ∧
    triangleList[2 * g + 1]? = some ⟨4 * g + 2, 4 * g + 3, 4 * g⟩ := by decide

theorem triangleList_bound : ∀ t ∈ triangleList, t.x < 32 ∧ t.y < 32 ∧ t.z < 32 := by decide

theorem primitives_built (s : Basic4DPlugin) (a : ℚ) (m : Model) (n : Nat) :
    primitives { s with builds := n, _model := some (built a m) } =
      some ((vertexList a).map (fun v => ⟨v, 1/10⟩), cylinderList (vertexList a) (1/20),
        ⟨meshVertexList (vertexList a), triangleList⟩) := by
  simp [primitives, built_spheres, built_cylinders, built_mesh]

theorem built_built (a : ℚ) (m : Model) : built a (built a m) = built a m := by
  simp [built]

/-- The state after `init` on a fresh plugin object and an empty created model. -/
theorem init_eq :
    init {} (some Model.empty) =
      some (⟨0, some (built 0 Model.empty), [], 1⟩ : Basic4DPlugin) :=
  createGeometry_eq { _model := some Model.empty } Model.empty rfl (le_refl _) (by norm_num)

theorem preRender_same (s : Basic4DPlugin) (frame : Nat) (h : (frame : ℚ) / 360 = s._angle) :
    preRender s frame = some s := by
  unfold preRender
  simp only [ne_eq, h, not_true_eq_false, if_false]
  rfl

theorem preRender_changed (s : Basic4DPlugin) (m : Model) (frame : Nat)
    (hm : s._model = some m) (h0 : 0 ≤ s._angle) (h1 : s._angle < 1)
    (h : (frame : ℚ) / 360 ≠ s._angle) :
    preRender s frame =
      some { s with _angle := (frame : ℚ) / 360, builds := s.builds + 1,
                    _model := some (built s._angle m) } := by
  unfold preRender
  simp only [ne_eq, h, not_false_eq_true, if_true]
  rw [createGeometry_eq s m hm h0 h1]
  rfl

theorem createGeometry_builds (s t : Basic4DPlugin) (h : _createGeometry s = some t) :
    t.builds = s.builds + 1 ∧ t._angle = s._angle ∧ t.log = s.log ∧ s._model.isSome := by
  obtain ⟨a, mo, lg, b⟩ := s
  cases mo with
  | none => simp [_createGeometry] at h
  | some m =>
    simp only [_createGeometry, Option.isNone_some, Bool.false_eq_true, if_false,
      Option.bind_eq_bind, Option.bind_eq_some, Option.pure_def, Option.some.injEq] at h
    obtain ⟨_, _, _, _, _, _, _, _, rfl⟩ := h
    exact ⟨rfl, rfl, rfl, rfl⟩

theorem phase_range (f : Nat) (h : f < 360) : 0 ≤ (f : ℚ) / 360 ∧ (f : ℚ) / 360 < 1 := by
  have h' : (f : ℚ) < 360 := by exact_mod_cast h
  constructor
  · positivity
  · rw [div_lt_one (by norm_num)]
    exact h'

theorem preRender_builds (s t : Basic4DPlugin) (frame : Nat) (h : preRender s frame = some t) :
    t._angle = (frame : ℚ) / 360 ∧
      t.builds = s.builds + (if (frame : ℚ) / 360 = s._angle then 0 else 1) := by
  by_cases c : (frame : ℚ) / 360 = s._angle
  · rw [preRender_same s frame c] at h
    cases h
    exact ⟨c.symm, by simp [c]⟩
  · unfold preRender at h
    simp only [ne_eq, c, not_false_eq_true, if_true] at h
    cases hc : _createGeometry s with
    | none => simp [hc] at h
    | some u =>
      rw [hc] at h
      cases h
      exact ⟨rfl, by simp [c, (createGeometry_builds s u hc).1]⟩

theorem ticks_builds (frames : List Nat) :
    ∀ (s s' : Basic4DPlugin), ticks s frames = some s' →
      s'.builds = s.builds + phaseChanges s._angle (frames.map fun f : Nat => (f : ℚ) / 360) := by
  induction frames with
  | nil =>
    intro s s' h
    simp only [ticks, List.foldlM_nil, Option.pure_def, Option.some.injEq] at h
    subst h
    rfl
  | cons f fs ih =>
    intro s s' h
    simp only [ticks, List.foldlM_cons, Option.bind_eq_bind, Option.bind_eq_some] at h
    obtain ⟨t, ht, hs'⟩ := h
    obtain ⟨ha, hb⟩ := preRender_builds s t f ht
    have h2 := ih t s' hs'
    rw [h2, hb, ha]
    simp only [List.map_cons, phaseChanges]
    omega

theorem ticks_defined (frames : List Nat) (hf : ∀ f ∈ frames, f < 360) :
    ∀ (s : Basic4DPlugin) (m : Model), s._model = some m → 0 ≤ s._angle → s._angle < 1 →
      ∃ s', ticks s frames = some s' := by
  induction frames with
  | nil =>
    intro s m _ _ _
    exact ⟨s, rfl⟩
  | cons f fs ih =>
    intro s m hm h0 h1
    have hfs : ∀ g ∈ fs, g < 360 := fun g hg => hf g (List.mem_cons_of_mem _ hg)
    have hr := phase_range f (hf f (List.mem_cons_self _ _))
    by_cases h : (f : ℚ) / 360 = s._angle
    · obtain ⟨s', hs'⟩ := ih hfs s m hm h0 h1
      refine ⟨s', ?_⟩
      simp only [ticks, List.foldlM_cons, preRender_same s f h, Option.bind_eq_bind,
        Option.some_bind]
      exact hs'
    · obtain ⟨s', hs'⟩ := ih hfs
        { s with _angle := (f : ℚ) / 360, builds := s.builds + 1,
                 _model := some (built s._angle m) } (built s._angle m) rfl hr.1 hr.2
      refine ⟨s', ?_⟩
      simp only [ticks, List.foldlM_cons, preRender_changed s m f hm h0 h1 h,
        Option.bind_eq_bind, Option.some_bind]
      exact hs'

theorem phaseChanges_le_runs (last : ℚ) (ps : List ℚ) : phaseChanges last ps ≤ phaseRuns ps := by
  cases ps with
  | nil => simp [phaseChanges, phaseRuns]
  | cons p ps =>
    simp only [phaseChanges, phaseRuns]
    split <;> omega

theorem closing_gap (d ε : ℚ) (hε : 0 < ε) :
    ∃ δ : ℚ, 0 < δ ∧ ∀ a : ℚ, a < 1 → 1 - a < δ → |d * 4 * (1 - a)| < ε := by
  refine ⟨ε / (4 * |d| + 1), by positivity, ?_⟩
  intro a ha hd
  have hpos : (0 : ℚ) < 4 * |d| + 1 := by positivity
  have h1 : 0 < 1 - a := by linarith
  rw [abs_mul, abs_mul, abs_of_pos h1]
  have h4 : |(4 : ℚ)| = 4 := abs_of_pos (by norm_num)
  rw [h4]
  have hlt : (1 - a) * (4 * |d| + 1) < ε := by
    rwa [lt_div_iff₀ hpos] at hd
  nlinarith [abs_nonneg d]

theorem sampleState_nonneg : 0 ≤ sampleState._angle := by
  norm_num [sampleState]

theorem sampleState_lt_one : sampleState._angle < 1 := by
  norm_num [sampleState]

/-! ### The claims -/

/-- C1: for a phase in [0,1) the interpolator returns, on each coordinate,
`a + (b - a) * (phase - k/4) * 4`, where `k` is the quarter containing the phase
and `(a, b)` is `(p4, p1)`, `(p1, p2)`, `(p2, p3)`, `(p3, p4)` for `k = 0, 1, 2, 3`. -/
theorem computeCoordinates_quarter_formula (s : Basic4DPlugin) (p1 p2 p3 p4 : Vector3f)
    (h0 : 0 ≤ s._angle) (h1 : s._angle < 1) :
    ∃ k : Nat, k < 4 ∧ (k : ℚ) / 4 ≤ s._angle ∧ s._angle < ((k : ℚ) + 1) / 4 ∧
      s._computeCoordinates p1 p2 p3 p4 =
        some (specQuarter s._angle k (specEndpoints k p1 p2 p3 p4).1
          (specEndpoints k p1 p2 p3 p4).2) := by
  rw [computeCoordinates_eq s p1 p2 p3 p4 h0 h1]
  unfold interp
  by_cases c0 : s._angle < 1/4
  · refine ⟨0, by norm_num, by norm_num; exact h0, by norm_num; linarith, ?_⟩
    rw [if_pos c0]
    simp [specQuarter, specEndpoints, branch0]
  · rw [if_neg c0]
    by_cases c1 : s._angle < 1/2
    · refine ⟨1, by norm_num, by norm_num; linarith, by norm_num; linarith, ?_⟩
      rw [if_pos c1]
      simp [specQuarter, specEndpoints, branch1]
    · rw [if_neg c1]
      by_cases c2 : s._angle < 3/4
      · refine ⟨2, by norm_num, by norm_num; linarith, by norm_num; linarith, ?_⟩
        rw [if_pos c2]
        simp [specQuarter, specEndpoints, branch2]
        norm_num
      · refine ⟨3, by norm_num, by norm_num; linarith, by norm_num; linarith, ?_⟩
        rw [if_neg c2]
        simp [specQuarter, specEndpoints, branch3]

theorem computeCoordinates_quarter_formula_witness :
    (0 : ℚ) ≤ ({ _angle := 3/8 } : Basic4DPlugin)._angle ∧
    ({ _angle := 3/8 } : Basic4DPlugin)._angle < 1 ∧
    ∃ k : Nat, k < 4 ∧ (k : ℚ) / 4 ≤ ({ _angle := 3/8 } : Basic4DPlugin)._angle ∧
      ({ _angle := 3/8 } : Basic4DPlugin)._angle < ((k : ℚ) + 1) / 4 ∧
      ({ _angle := 3/8 } : Basic4DPlugin)._computeCoordinates ⟨1, 2, 3⟩ ⟨5, 6, 7⟩ ⟨0, 0, 0⟩ ⟨9, 9, 9⟩ =
        some (specQuarter ({ _angle := 3/8 } : Basic4DPlugin)._angle k
          (specEndpoints k ⟨1, 2, 3⟩ ⟨5, 6, 7⟩ ⟨0, 0, 0⟩ ⟨9, 9, 9⟩).1
          (specEndpoints k ⟨1, 2, 3⟩ ⟨5, 6, 7⟩ ⟨0, 0, 0⟩ ⟨9, 9, 9⟩).2) :=
  ⟨by norm_num, by norm_num,
    computeCoordinates_quarter_formula { _angle := 3/8 } ⟨1, 2, 3⟩ ⟨5, 6, 7⟩ ⟨0, 0, 0⟩ ⟨9, 9, 9⟩
      (by norm_num) (by norm_num)⟩

/-- C2 (evaluation at the failing input): from the state after `init`, a tick at
frame 90 stores phase 1/4 but leaves the collections the builder produces for
the old phase 0, not the ones it produces for phase 1/4: sphere 0 stays at
(-1/2, -1/2, -1/2) whereas the builder at phase 1/4 puts it at (-1, -1, -1). -/
theorem preRender_builds_with_stale_angle :
    ∃ s0 s1 sNew, init {} (some Model.empty) = some s0 ∧
      preRender s0 90 = some s1 ∧ s1._angle = 1/4 ∧
      _createGeometry { s0 with _angle := 1/4 } = some sNew ∧
      s1.primitives = s0.primitives ∧
      (s1.primitives.map fun p => p.1[0]?) = some (some ⟨⟨-1/2, -1/2, -1/2⟩, 1/10⟩) ∧
      (sNew.primitives.map fun p => p.1[0]?) = some (some ⟨⟨-1, -1, -1⟩, 1/10⟩) ∧
      s1.primitives ≠ sNew.primitives := by
  have hne : ((90 : Nat) : ℚ) / 360 ≠ 0 := by norm_num
  have hpre : preRender (⟨0, some (built 0 Model.empty), [], 1⟩ : Basic4DPlugin) 90 =
      some (⟨1/4, some (built 0 (built 0 Model.empty)), [], 2⟩ : Basic4DPlugin) := by
    unfold preRender
    simp only [hne, ne_eq, not_false_eq_true, if_true]
    rw [createGeometry_eq _ (built 0 Model.empty) rfl (le_refl _) (by norm_num)]
    simp
    norm_num
  have hnew : _createGeometry (⟨1/4, some (built 0 Model.empty), [], 1⟩ : Basic4DPlugin) =
      some (⟨1/4, some (built (1/4) (built 0 Model.empty)), [], 2⟩ : Basic4DPlugin) :=
    createGeometry_eq _ (built 0 Model.empty) rfl (by norm_num) (by norm_num)
  have e0 : interp 0 (T 8) (T 9) (T 1) (T 0) = ⟨-1/2, -1/2, -1/2⟩ := by
    simp [interp, branch0, T, tesseract]
  have e1 : interp (1/4) (T 8) (T 9) (T 1) (T 0) = ⟨-1, -1, -1⟩ := by
    norm_num [interp, branch1, T, tesseract]
  have p1 : (primitives (⟨1/4, some (built 0 (built 0 Model.empty)), [], 2⟩ : Basic4DPlugin)).map (fun p => p.1[0]?) =
      some (some ⟨⟨-1/2, -1/2, -1/2⟩, 1/10⟩) := by
    simp only [primitives, Option.map_some', built_spheres, vertexList, List.map_cons, e0]
    rfl
  have p2 : (primitives (⟨1/4, some (built (1/4) (built 0 Model.empty)), [], 2⟩ : Basic4DPlugin)).map (fun p => p.1[0]?) =
      some (some ⟨⟨-1, -1, -1⟩, 1/10⟩) := by
    simp only [primitives, Option.map_some', built_spheres, vertexList, List.map_cons, e1]
    rfl
  refine ⟨_, _, _, init_eq, hpre, rfl, hnew, ?_, p1, p2, ?_⟩
  · simp [primitives, built_built]
  · intro h
    rw [h, p2] at p1
    simp at p1
    norm_num at p1

/-- C3: for a bound model of any prior content and a phase in [0,1), the builder
leaves exactly 16 vertex-material spheres, 32 edge-material cylinders, and a
face-material mesh of 32 vertices and 16 triangles. -/
theorem createGeometry_counts (s : Basic4DPlugin) (m : Model) (hm : s._model = some m)
    (h0 : 0 ≤ s._angle) (h1 : s._angle < 1) :
    ∃ s' m', _createGeometry s = some s' ∧ s'._model = some m' ∧
      (m'.spheres VERTEX_MATERIAL_ID).length = 16 ∧
      (m'.cylinders EDGE_MATERIAL_ID).length = 32 ∧
      (m'.trianglesMeshes FACE_MATERIAL_ID).vertices.length = 32 ∧
      (m'.trianglesMeshes FACE_MATERIAL_ID).indices.length = 16 := by
  refine ⟨_, _, createGeometry_eq s m hm h0 h1, rfl, ?_, ?_, ?_, ?_⟩
  · simp [built, vertexList]
  · simp [built, cylinderList, joints]
  · simp [built, meshVertexList, joints]
  · simp [built, triangleList, List.range, List.range.loop]

theorem createGeometry_counts_witness :
    sampleState._model = some sampleModel ∧ 0 ≤ sampleState._angle ∧
    sampleState._angle < 1 ∧
    ∃ s' m', _createGeometry sampleState = some s' ∧ s'._model = some m' ∧
      (m'.spheres VERTEX_MATERIAL_ID).length = 16 ∧
      (m'.cylinders EDGE_MATERIAL_ID).length = 32 ∧
      (m'.trianglesMeshes FACE_MATERIAL_ID).vertices.length = 32 ∧
      (m'.trianglesMeshes FACE_MATERIAL_ID).indices.length = 16 :=
  ⟨rfl, sampleState_nonneg, sampleState_lt_one,
    createGeometry_counts sampleState sampleModel rfl sampleState_nonneg sampleState_lt_one⟩

/-- C4: for a phase in [0,1) and each group g < 8, mesh vertices 4g..4g+3 are
the computed vertices at the first indices of edge pairs 4g..4g+3, triangles 2g
and 2g+1 are (4g, 4g+1, 4g+2) and (4g+2, 4g+3, 4g), and every triangle index is
below the number of mesh vertices. -/
theorem createGeometry_mesh_groups (s : Basic4DPlugin) (m : Model) (hm : s._model = some m)
    (h0 : 0 ≤ s._angle) (h1 : s._angle < 1) :
    ∃ s' m' vs, _createGeometry s = some s' ∧ s'._model = some m' ∧ s.vertices = some vs ∧
      (∀ g, g < 8 →
        (∀ k, k < 4 → ∃ j v, joints[4 * g + k]? = some j ∧ vs[j.1]? = some v ∧
          (m'.trianglesMeshes FACE_MATERIAL_ID).vertices[4 * g + k]? = some v) ∧
        (m'.trianglesMeshes FACE_MATERIAL_ID).indices[2 * g]? =
          some ⟨4 * g, 4 * g + 1, 4 * g + 2⟩ ∧
        (m'.trianglesMeshes FACE_MATERIAL_ID).indices[2 * g + 1]? =
          some ⟨4 * g + 2, 4 * g + 3, 4 * g⟩) ∧
      (∀ t, t ∈ (m'.trianglesMeshes FACE_MATERIAL_ID).indices →
        t.x < (m'.trianglesMeshes FACE_MATERIAL_ID).vertices.length ∧
        t.y < (m'.trianglesMeshes FACE_MATERIAL_ID).vertices.length ∧
        t.z < (m'.trianglesMeshes FACE_MATERIAL_ID).vertices.length) := by
  refine ⟨_, _, _, createGeometry_eq s m hm h0 h1, rfl, vertices_eq s h0 h1, ?_, ?_⟩
  · intro g hg
    simp only [built_mesh]
    refine ⟨?_, triangleList_groups g hg⟩
    intro k hk
    obtain ⟨e, he, he1, _⟩ := joints_get (4 * g + k) (by omega)
    refine ⟨e, _, he, vertexList_get _ e.1 he1, ?_⟩
    simp [meshVertexList, List.getElem?_map, he]
  · intro t ht
    simp only [built_mesh] at ht ⊢
    have hlen : (meshVertexList (vertexList s._angle)).length = 32 := by
      simp [meshVertexList, joints]
    rw [hlen]
    exact triangleList_bound t ht

theorem createGeometry_mesh_groups_witness :
    sampleState._model = some sampleModel ∧ 0 ≤ sampleState._angle ∧
    sampleState._angle < 1 ∧
    ∃ s' m' vs, _createGeometry sampleState = some s' ∧ s'._model = some m' ∧ sampleState.vertices = some vs ∧
      (∀ g, g < 8 →
        (∀ k, k < 4 → ∃ j v, joints[4 * g + k]? = some j ∧ vs[j.1]? = some v ∧
          (m'.trianglesMeshes FACE_MATERIAL_ID).vertices[4 * g + k]? = some v) ∧
        (m'.trianglesMeshes FACE_MATERIAL_ID).indices[2 * g]? =
          some ⟨4 * g, 4 * g + 1, 4 * g + 2⟩ ∧
        (m'.trianglesMeshes FACE_MATERIAL_ID).indices[2 * g + 1]? =
          some ⟨4 * g + 2, 4 * g + 3, 4 * g⟩) ∧
      (∀ t, t ∈ (m'.trianglesMeshes FACE_MATERIAL_ID).indices →
        t.x < (m'.trianglesMeshes FACE_MATERIAL_ID).vertices.length ∧
        t.y < (m'.trianglesMeshes FACE_MATERIAL_ID).vertices.length ∧
        t.z < (m'.trianglesMeshes FACE_MATERIAL_ID).vertices.length) :=
  ⟨rfl, sampleState_nonneg, sampleState_lt_one,
    createGeometry_mesh_groups sampleState sampleModel rfl sampleState_nonneg sampleState_lt_one⟩

/-- C5: for a phase in [0,1) the builder leaves 32 cylinders, the j-th joining
the computed vertices at indices `joints[j][0]` and `joints[j][1]`, in that
order, with radius 0.05. -/
theorem createGeometry_cylinders (s : Basic4DPlugin) (m : Model) (hm : s._model = some m)
    (h0 : 0 ≤ s._angle) (h1 : s._angle < 1) :
    ∃ s' m' vs, _createGeometry s = some s' ∧ s'._model = some m' ∧ s.vertices = some vs ∧
      (m'.cylinders EDGE_MATERIAL_ID).length = 32 ∧
      ∀ j, j < 32 → ∃ e t u, joints[j]? = some e ∧ vs[e.1]? = some t ∧ vs[e.2]? = some u ∧
        (m'.cylinders EDGE_MATERIAL_ID)[j]? = some ⟨t, u, 1/20⟩ := by
  refine ⟨_, _, _, createGeometry_eq s m hm h0 h1, rfl, vertices_eq s h0 h1, ?_, ?_⟩
  · simp [built_cylinders, cylinderList, joints]
  · intro j hj
    obtain ⟨e, he, he1, he2⟩ := joints_get j hj
    refine ⟨e, _, _, he, vertexList_get _ e.1 he1, vertexList_get _ e.2 he2, ?_⟩
    simp [built_cylinders, cylinderList, List.getElem?_map, he]

theorem createGeometry_cylinders_witness :
    sampleState._model = some sampleModel ∧ 0 ≤ sampleState._angle ∧
    sampleState._angle < 1 ∧
    ∃ s' m' vs, _createGeometry sampleState = some s' ∧ s'._model = some m' ∧ sampleState.vertices = some vs ∧
      (m'.cylinders EDGE_MATERIAL_ID).length = 32 ∧
      ∀ j, j < 32 → ∃ e t u, joints[j]? = some e ∧ vs[e.1]? = some t ∧ vs[e.2]? = some u ∧
        (m'.cylinders EDGE_MATERIAL_ID)[j]? = some ⟨t, u, 1/20⟩ :=
  ⟨rfl, sampleState_nonneg, sampleState_lt_one,
    createGeometry_cylinders sampleState sampleModel rfl sampleState_nonneg sampleState_lt_one⟩

/-- C6: at a phase in [0,1), running the builder twice in a row leaves the
primitive collections (indeed the whole model) as a single run leaves them, and
the collections after a run are the same for any two bound starting states of
that phase, whatever they held before. -/
theorem createGeometry_idempotent (s : Basic4DPlugin) (m : Model) (hm : s._model = some m)
    (h0 : 0 ≤ s._angle) (h1 : s._angle < 1) :
    ∃ s1 s2, _createGeometry s = some s1 ∧ _createGeometry s1 = some s2 ∧
      s2.primitives = s1.primitives ∧ s2._model = s1._model ∧
      ∀ (t : Basic4DPlugin) (m' : Model), t._model = some m' → t._angle = s._angle →
        ∃ t1, _createGeometry t = some t1 ∧ t1.primitives = s1.primitives := by
  refine ⟨_, _, createGeometry_eq s m hm h0 h1,
    createGeometry_eq _ (built s._angle m) rfl h0 h1, ?_, ?_, ?_⟩
  · simp only [built_built]
    rw [primitives_built, primitives_built]
  · simp only [built_built]
  · intro t m' ht ha
    refine ⟨_, createGeometry_eq t m' ht (ha ▸ h0) (ha ▸ h1), ?_⟩
    rw [primitives_built, primitives_built, ha]

theorem createGeometry_idempotent_witness :
    sampleState._model = some sampleModel ∧ 0 ≤ sampleState._angle ∧
    sampleState._angle < 1 ∧
    ∃ s1 s2, _createGeometry sampleState = some s1 ∧ _createGeometry s1 = some s2 ∧
      s2.primitives = s1.primitives ∧ s2._model = s1._model ∧
      ∀ (t : Basic4DPlugin) (m' : Model), t._model = some m' → t._angle = sampleState._angle →
        ∃ t1, _createGeometry t = some t1 ∧ t1.primitives = s1.primitives :=
  ⟨rfl, sampleState_nonneg, sampleState_lt_one,
    createGeometry_idempotent sampleState sampleModel rfl sampleState_nonneg sampleState_lt_one⟩

/-- C7: a tick whose phase equals the stored one leaves the whole state (the
collections, the stored phase, the build count) unchanged and does not run the
builder; a tick whose phase differs is exactly one run of the builder on the
current state followed by the assignment of the new phase, so its model and
collections are the ones that run leaves; from the state after `init`, two
consecutive ticks at frame 10 run the builder exactly once. -/
theorem preRender_rebuild_iff (s : Basic4DPlugin) (frame : Nat) :
    ((frame : ℚ) / 360 = s._angle → preRender s frame = some s) ∧
    ((frame : ℚ) / 360 ≠ s._angle →
      preRender s frame =
        (_createGeometry s).map fun t => { t with _angle := (frame : ℚ) / 360 }) ∧
    ((frame : ℚ) / 360 ≠ s._angle → ∀ m, s._model = some m → 0 ≤ s._angle → s._angle < 1 →
      ∃ t s', _createGeometry s = some t ∧ preRender s frame = some s' ∧
        s'._model = t._model ∧ s'.primitives = t.primitives ∧ s'.log = t.log ∧
        s'.builds = t.builds ∧
        s'.builds = s.builds + 1 ∧
        s'._angle = (frame : ℚ) / 360) ∧
    (∀ s', preRender s frame = some s' →
      (s'.builds = s.builds + 1 ↔ (frame : ℚ) / 360 ≠ s._angle) ∧
      (s'.builds = s.builds ↔ (frame : ℚ) / 360 = s._angle)) ∧
    (∃ s0 t s1 s2, init {} (some Model.empty) = some s0 ∧ s0._angle = 0 ∧
      _createGeometry s0 = some t ∧
      preRender s0 10 = some s1 ∧ s1 = { t with _angle := ((10 : Nat) : ℚ) / 360 } ∧
      preRender s1 10 = some s2 ∧ s2 = s1 ∧
      s1.builds = s0.builds + 1 ∧ s2.builds = s0.builds + 1) := by
  have hmap : (frame : ℚ) / 360 ≠ s._angle →
      preRender s frame =
        (_createGeometry s).map fun t => { t with _angle := (frame : ℚ) / 360 } := by
    intro h
    unfold preRender
    simp only [ne_eq, h, not_false_eq_true, if_true]
    cases _createGeometry s <;> rfl
  refine ⟨preRender_same s frame, hmap, ?_, ?_, ?_⟩
  · intro h m hm h0 h1
    have hc := createGeometry_eq s m hm h0 h1
    exact ⟨_, _, hc, preRender_changed s m frame hm h0 h1 h, rfl, rfl, rfl, rfl, rfl, rfl⟩
  · intro s' hs'
    by_cases h : (frame : ℚ) / 360 = s._angle
    · rw [preRender_same s frame h] at hs'
      cases hs'
      simp [h]
    · unfold preRender at hs'
      simp only [ne_eq, h, not_false_eq_true, if_true] at hs'
      cases hc : _createGeometry s with
      | none => simp [hc] at hs'
      | some t =>
        rw [hc] at hs'
        cases hs'
        have hb := (createGeometry_builds s t hc).1
        simp [hb, h]
  · have hne : ((10 : Nat) : ℚ) / 360 ≠ 0 := by norm_num
    refine ⟨_, _, _, _, init_eq, rfl,
      createGeometry_eq _ (built 0 Model.empty) rfl (le_refl _) (by norm_num),
      preRender_changed _ (built 0 Model.empty) 10 rfl (le_refl _) (by norm_num) hne, rfl,
      preRender_same _ 10 rfl, rfl, rfl, rfl⟩

theorem preRender_rebuild_iff_witness :
    ((10 : Nat) : ℚ) / 360 ≠ sampleState._angle ∧
    (sampleState.primitives.map fun p => (p.1.length, p.2.1.length)) = some (1, 1) ∧
    ∃ t s', _createGeometry sampleState = some t ∧ preRender sampleState 10 = some s' ∧
      s'._model = t._model ∧ s'.primitives = t.primitives ∧ s'.log = t.log ∧
      s'.builds = t.builds ∧
      s'.builds = sampleState.builds + 1 ∧
      s'._angle = ((10 : Nat) : ℚ) / 360 ∧
      (s'.primitives.map fun p => (p.1.length, p.2.1.length)) = some (16, 32) := by
  refine ⟨by norm_num [sampleState], rfl, ?_⟩
  obtain ⟨t, s', ht, hs', e1, e2, e3, e4, e5, e6⟩ :=
    (preRender_rebuild_iff sampleState 10).2.2.1 (by norm_num [sampleState]) sampleModel rfl
      sampleState_nonneg sampleState_lt_one
  refine ⟨t, s', ht, hs', e1, e2, e3, e4, e5, e6, ?_⟩
  rw [e2]
  have hc := createGeometry_eq sampleState sampleModel rfl sampleState_nonneg
    sampleState_lt_one
  rw [hc] at ht
  cases ht
  rw [primitives_built]
  simp [vertexList, cylinderList, joints]

/-- C8 (as stated, refuted): from the state after `init`, the frames 10, 20, 10
hold two distinct phase values but run the builder three times. -/
theorem builds_exceed_distinct_phases :
    ∃ s0 s', init {} (some Model.empty) = some s0 ∧ ticks s0 [10, 20, 10] = some s' ∧
      distinctPhases [10, 20, 10] = 2 ∧ s'.builds = s0.builds + 3 ∧
      ¬ (s'.builds ≤ s0.builds + distinctPhases [10, 20, 10]) := by
  have hd : distinctPhases [10, 20, 10] = 2 := by
    have h1 : ((10 : Nat) : ℚ) / 360 ∈ [((20 : Nat) : ℚ) / 360, ((10 : Nat) : ℚ) / 360] := by simp
    have h2 : ((20 : Nat) : ℚ) / 360 ∉ [((10 : Nat) : ℚ) / 360] := by norm_num
    have h3 : ((10 : Nat) : ℚ) / 360 ∉ ([] : List ℚ) := by simp
    simp only [distinctPhases, List.map_cons, List.map_nil]
    rw [List.dedup_cons_of_mem h1, List.dedup_cons_of_not_mem h2, List.dedup_cons_of_not_mem h3]
    rfl
  obtain ⟨s', hs'⟩ := ticks_defined [10, 20, 10] (by decide)
    (⟨0, some (built 0 Model.empty), [], 1⟩ : Basic4DPlugin) (built 0 Model.empty) rfl
    (le_refl _) (by norm_num)
  have hb := ticks_builds [10, 20, 10] _ s' hs'
  have hc : phaseChanges 0 ([10, 20, 10].map fun f : Nat => (f : ℚ) / 360) = 3 := by
    norm_num [phaseChanges]
  have hb' : s'.builds = 1 + 3 := by rw [hb]; simp only [hc]
  refine ⟨_, s', init_eq, hs', hd, hb', ?_⟩
  simp only [hb', hd]
  decide

/-- C8 (amended): after `init` on any created model, for every sequence of
frames, when the ticks complete the number of builder runs they caused equals
the number of ticks whose phase differs from the phase stored by the tick
before (0 after `init`), which is at most the number of maximal runs of equal
consecutive phase values in the sequence; and the ticks do complete when every
frame is below 360. -/
theorem builds_le_phase_runs (created : Model) (frames : List Nat) :
    ∃ s0, init {} (some created) = some s0 ∧
      (∀ s', ticks s0 frames = some s' →
        s'.builds = s0.builds + phaseChanges 0 (frames.map fun f : Nat => (f : ℚ) / 360) ∧
        s'.builds ≤ s0.builds + phaseRuns (frames.map fun f : Nat => (f : ℚ) / 360)) ∧
      ((∀ f ∈ frames, f < 360) → ∃ s', ticks s0 frames = some s') := by
  have hi : init {} (some created) =
      some (⟨0, some (built 0 created), [], 1⟩ : Basic4DPlugin) :=
    createGeometry_eq { _model := some created } created rfl (le_refl _) (by norm_num)
  refine ⟨_, hi, ?_, ?_⟩
  · intro s' hs'
    have hb := ticks_builds frames _ s' hs'
    refine ⟨hb, ?_⟩
    rw [hb]
    exact Nat.add_le_add_left (phaseChanges_le_runs _ _) _
  · intro hf
    exact ticks_defined frames hf _ (built 0 created) rfl (le_refl _) (by norm_num)

theorem builds_le_phase_runs_witness :
    (∀ f ∈ [10, 10, 20, 10], f < 360) ∧
    ∃ s0 s', init {} (some Model.empty) = some s0 ∧ ticks s0 [10, 10, 20, 10] = some s' ∧
      s'.builds = s0.builds +
        phaseChanges 0 (([10, 10, 20, 10] : List Nat).map fun f : Nat => (f : ℚ) / 360) :=
  ⟨by decide,
    (builds_le_phase_runs Model.empty [10, 10, 20, 10]).elim fun s0 h =>
      (h.2.2 (by decide)).elim fun s' hs' => ⟨s0, s', h.1, hs', (h.2.1 s' hs').1⟩⟩

theorem gap_small (d ε : ℚ) (hε : 0 < ε) :
    ∃ δ : ℚ, 0 < δ ∧ ∀ u : ℚ, 0 ≤ u → u < δ → |d * 4 * u| < ε := by
  refine ⟨ε / (4 * |d| + 1), by positivity, ?_⟩
  intro u hu hd
  have hpos : (0 : ℚ) < 4 * |d| + 1 := by positivity
  rw [abs_mul, abs_mul, abs_of_nonneg hu]
  have h4 : |(4 : ℚ)| = 4 := abs_of_pos (by norm_num)
  rw [h4]
  have hlt : u * (4 * |d| + 1) < ε := by
    rwa [lt_div_iff₀ hpos] at hd
  nlinarith [abs_nonneg d]

theorem vec_gap (A v : Vector3f) (ε : ℚ) (hε : 0 < ε) :
    ∃ δ : ℚ, 0 < δ ∧ ∀ u : ℚ, 0 ≤ u → u < δ →
      |(A.x - v.x) * 4 * u| < ε ∧ |(A.y - v.y) * 4 * u| < ε ∧ |(A.z - v.z) * 4 * u| < ε := by
  obtain ⟨δx, hx, hxb⟩ := gap_small (A.x - v.x) ε hε
  obtain ⟨δy, hy, hyb⟩ := gap_small (A.y - v.y) ε hε
  obtain ⟨δz, hz, hzb⟩ := gap_small (A.z - v.z) ε hε
  refine ⟨min δx (min δy δz), lt_min hx (lt_min hy hz), ?_⟩
  intro u hu hd
  exact ⟨hxb u hu (lt_of_lt_of_le hd (min_le_left _ _)),
    hyb u hu (lt_of_lt_of_le hd (le_trans (min_le_right _ _) (min_le_left _ _))),
    hzb u hu (lt_of_lt_of_le hd (le_trans (min_le_right _ _) (min_le_right _ _)))⟩

theorem continuous_at_boundary (f : ℚ → Vector3f) (q : ℚ) (v L N : Vector3f)
    (hlow : ∀ a, q - 1/4 ≤ a → a < q →
      (f a).x - v.x = (L.x - v.x) * 4 * (q - a) ∧ (f a).y - v.y = (L.y - v.y) * 4 * (q - a) ∧
        (f a).z - v.z = (L.z - v.z) * 4 * (q - a))
    (hup : ∀ a, q ≤ a → a < q + 1/4 →
      (f a).x - v.x = (N.x - v.x) * 4 * (a - q) ∧ (f a).y - v.y = (N.y - v.y) * 4 * (a - q) ∧
        (f a).z - v.z = (N.z - v.z) * 4 * (a - q))
    (ε : ℚ) (hε : 0 < ε) :
    ∃ δ : ℚ, 0 < δ ∧ δ ≤ 1/4 ∧ ∀ a, |a - q| < δ → closeTo ε (f a) v := by
  obtain ⟨δL, hL, hLb⟩ := vec_gap L v ε hε
  obtain ⟨δN, hN, hNb⟩ := vec_gap N v ε hε
  refine ⟨min (1/4) (min δL δN), lt_min (by norm_num) (lt_min hL hN), min_le_left _ _, ?_⟩
  intro a ha
  have hq : |a - q| < 1/4 := lt_of_lt_of_le ha (min_le_left _ _)
  have hdL : |a - q| < δL := lt_of_lt_of_le ha (le_trans (min_le_right _ _) (min_le_left _ _))
  have hdN : |a - q| < δN := lt_of_lt_of_le ha (le_trans (min_le_right _ _) (min_le_right _ _))
  rw [abs_lt] at hq hdL hdN
  unfold closeTo
  by_cases c : a < q
  · obtain ⟨ex, ey, ez⟩ := hlow a (by linarith) c
    rw [ex, ey, ez]
    exact hLb (q - a) (by linarith) (by linarith)
  · obtain ⟨ex, ey, ez⟩ := hup a (not_lt.mp c) (by linarith)
    rw [ex, ey, ez]
    exact hNb (a - q) (by linarith [not_lt.mp c]) (by linarith)

theorem interp_q0 (a : ℚ) (p1 p2 p3 p4 : Vector3f) (h1 : a < 1/4) :
    interp a p1 p2 p3 p4 = branch0 a p1 p4 := by
  unfold interp
  rw [if_pos h1]

theorem interp_q1 (a : ℚ) (p1 p2 p3 p4 : Vector3f) (h0 : 1/4 ≤ a) (h1 : a < 1/2) :
    interp a p1 p2 p3 p4 = branch1 a p1 p2 := by
  unfold interp
  rw [if_neg (by linarith), if_pos h1]

theorem interp_q2 (a : ℚ) (p1 p2 p3 p4 : Vector3f) (h0 : 1/2 ≤ a) (h1 : a < 3/4) :
    interp a p1 p2 p3 p4 = branch2 a p2 p3 := by
  unfold interp
  rw [if_neg (by linarith), if_neg (by linarith), if_pos h1]

theorem interp_q3 (a : ℚ) (p1 p2 p3 p4 : Vector3f) (h0 : 3/4 ≤ a) :
    interp a p1 p2 p3 p4 = branch3 a p3 p4 := by
  unfold interp
  rw [if_neg (by linarith), if_neg (by linarith), if_neg (by linarith)]

theorem computeCoordinates_at (s : Basic4DPlugin) (a : ℚ) (p1 p2 p3 p4 : Vector3f)
    (h0 : 0 ≤ a) (h1 : a < 1) :
    ({ s with _angle := a } : Basic4DPlugin)._computeCoordinates p1 p2 p3 p4 =
      some (interp a p1 p2 p3 p4) :=
  computeCoordinates_eq _ p1 p2 p3 p4 h0 h1

theorem interp_continuous_quarter (p1 p2 p3 p4 : Vector3f) (ε : ℚ) (hε : 0 < ε) :
    ∃ δ : ℚ, 0 < δ ∧ δ ≤ 1/4 ∧ ∀ a, |a - 1/4| < δ → closeTo ε (interp a p1 p2 p3 p4) p1 := by
  refine continuous_at_boundary (fun a => interp a p1 p2 p3 p4) (1/4) p1 p4 p2 ?_ ?_ ε hε
  · intro a _ h1
    simp only [interp_q0 a p1 p2 p3 p4 h1, branch0]
    exact ⟨by ring, by ring, by ring⟩
  · intro a h0 h1
    simp only [interp_q1 a p1 p2 p3 p4 h0 (by linarith), branch1]
    exact ⟨by ring, by ring, by ring⟩

theorem interp_continuous_half (p1 p2 p3 p4 : Vector3f) (ε : ℚ) (hε : 0 < ε) :
    ∃ δ : ℚ, 0 < δ ∧ δ ≤ 1/4 ∧ ∀ a, |a - 1/2| < δ → closeTo ε (interp a p1 p2 p3 p4) p2 := by
  refine continuous_at_boundary (fun a => interp a p1 p2 p3 p4) (1/2) p2 p1 p3 ?_ ?_ ε hε
  · intro a h0 h1
    simp only [interp_q1 a p1 p2 p3 p4 (by linarith) h1, branch1]
    exact ⟨by ring, by ring, by ring⟩
  · intro a h0 h1
    simp only [interp_q2 a p1 p2 p3 p4 h0 (by linarith), branch2]
    exact ⟨by ring, by ring, by ring⟩

theorem interp_continuous_three_quarters (p1 p2 p3 p4 : Vector3f) (ε : ℚ) (hε : 0 < ε) :
    ∃ δ : ℚ, 0 < δ ∧ δ ≤ 1/4 ∧ ∀ a, |a - 3/4| < δ → closeTo ε (interp a p1 p2 p3 p4) p3 := by
  refine continuous_at_boundary (fun a => interp a p1 p2 p3 p4) (3/4) p3 p2 p4 ?_ ?_ ε hε
  · intro a h0 h1
    simp only [interp_q2 a p1 p2 p3 p4 (by linarith) h1, branch2]
    exact ⟨by ring, by ring, by ring⟩
  · intro a h0 h1
    simp only [interp_q3 a p1 p2 p3 p4 h0, branch3]
    exact ⟨by ring, by ring, by ring⟩

/-- C9: the interpolator is continuous across the quarter boundaries: at 1/4,
1/2, 3/4 it returns p1, p2, p3; on each quarter its result is the return
expression of that quarter's branch, and the expression of the quarter just
below a boundary, evaluated at the boundary, is the point returned there; and
for every positive bound the result stays within that bound of p1, p2, p3 for
all phases close enough to 1/4, 1/2, 3/4, from below and from above. -/
theorem computeCoordinates_boundaries (s : Basic4DPlugin) (p1 p2 p3 p4 : Vector3f) :
    ({ s with _angle := 1/4 } : Basic4DPlugin)._computeCoordinates p1 p2 p3 p4 = some p1 ∧
    ({ s with _angle := 1/2 } : Basic4DPlugin)._computeCoordinates p1 p2 p3 p4 = some p2 ∧
    ({ s with _angle := 3/4 } : Basic4DPlugin)._computeCoordinates p1 p2 p3 p4 = some p3 ∧
    some (branch0 (1/4) p1 p4) =
      ({ s with _angle := 1/4 } : Basic4DPlugin)._computeCoordinates p1 p2 p3 p4 ∧
    some (branch1 (1/2) p1 p2) =
      ({ s with _angle := 1/2 } : Basic4DPlugin)._computeCoordinates p1 p2 p3 p4 ∧
    some (branch2 (3/4) p2 p3) =
      ({ s with _angle := 3/4 } : Basic4DPlugin)._computeCoordinates p1 p2 p3 p4 ∧
    (∀ a : ℚ, 0 ≤ a → a < 1/4 →
      ({ s with _angle := a } : Basic4DPlugin)._computeCoordinates p1 p2 p3 p4 =
        some (branch0 a p1 p4)) ∧
    (∀ a : ℚ, 1/4 ≤ a → a < 1/2 →
      ({ s with _angle := a } : Basic4DPlugin)._computeCoordinates p1 p2 p3 p4 =
        some (branch1 a p1 p2)) ∧
    (∀ a : ℚ, 1/2 ≤ a → a < 3/4 →
      ({ s with _angle := a } : Basic4DPlugin)._computeCoordinates p1 p2 p3 p4 =
        some (branch2 a p2 p3)) ∧
    (∀ a : ℚ, 3/4 ≤ a → a < 1 →
      ({ s with _angle := a } : Basic4DPlugin)._computeCoordinates p1 p2 p3 p4 =
        some (branch3 a p3 p4)) ∧
    (∀ ε : ℚ, 0 < ε → ∃ δ : ℚ, 0 < δ ∧ ∀ a : ℚ, |a - 1/4| < δ →
      ∃ r, ({ s with _angle := a } : Basic4DPlugin)._computeCoordinates p1 p2 p3 p4 = some r ∧
        closeTo ε r p1) ∧
    (∀ ε : ℚ, 0 < ε → ∃ δ : ℚ, 0 < δ ∧ ∀ a : ℚ, |a - 1/2| < δ →
      ∃ r, ({ s with _angle := a } : Basic4DPlugin)._computeCoordinates p1 p2 p3 p4 = some r ∧
        closeTo ε r p2) ∧
    (∀ ε : ℚ, 0 < ε → ∃ δ : ℚ, 0 < δ ∧ ∀ a : ℚ, |a - 3/4| < δ →
      ∃ r, ({ s with _angle := a } : Basic4DPlugin)._computeCoordinates p1 p2 p3 p4 = some r ∧
        closeTo ε r p3) := by
  have e1 : ({ s with _angle := 1/4 } : Basic4DPlugin)._computeCoordinates p1 p2 p3 p4 =
      some p1 := by
    rw [computeCoordinates_eq _ p1 p2 p3 p4 (by norm_num) (by norm_num)]
    norm_num [interp, branch1]
  have e2 : ({ s with _angle := 1/2 } : Basic4DPlugin)._computeCoordinates p1 p2 p3 p4 =
      some p2 := by
    rw [computeCoordinates_eq _ p1 p2 p3 p4 (by norm_num) (by norm_num)]
    norm_num [interp, branch2]
  have e3 : ({ s with _angle := 3/4 } : Basic4DPlugin)._computeCoordinates p1 p2 p3 p4 =
      some p3 := by
    rw [computeCoordinates_eq _ p1 p2 p3 p4 (by norm_num) (by norm_num)]
    norm_num [interp, branch3]
  refine ⟨e1, e2, e3, ?_, ?_, ?_, ?_, ?_, ?_, ?_, ?_, ?_, ?_⟩
  · rw [e1]
    obtain ⟨x, y, z⟩ := p1
    simp only [branch0, Option.some.injEq, Vector3f.mk.injEq]
    exact ⟨by ring, by ring, by ring⟩
  · rw [e2]
    obtain ⟨x, y, z⟩ := p2
    simp only [branch1, Option.some.injEq, Vector3f.mk.injEq]
    exact ⟨by ring, by ring, by ring⟩
  · rw [e3]
    obtain ⟨x, y, z⟩ := p3
    simp only [branch2, Option.some.injEq, Vector3f.mk.injEq]
    exact ⟨by ring, by ring, by ring⟩
  · intro a h0 h1
    rw [computeCoordinates_at s a p1 p2 p3 p4 h0 (by linarith), interp_q0 a p1 p2 p3 p4 h1]
  · intro a h0 h1
    rw [computeCoordinates_at s a p1 p2 p3 p4 (by linarith) (by linarith),
      interp_q1 a p1 p2 p3 p4 h0 h1]
  · intro a h0 h1
    rw [computeCoordinates_at s a p1 p2 p3 p4 (by linarith) (by linarith),
      interp_q2 a p1 p2 p3 p4 h0 h1]
  · intro a h0 h1
    rw [computeCoordinates_at s a p1 p2 p3 p4 (by linarith) h1, interp_q3 a p1 p2 p3 p4 h0]
  · intro ε hε
    obtain ⟨δ, hδ, hle, hb⟩ := interp_continuous_quarter p1 p2 p3 p4 ε hε
    refine ⟨δ, hδ, fun a ha => ?_⟩
    have hq := abs_lt.mp (lt_of_lt_of_le ha hle)
    exact ⟨_, computeCoordinates_at s a p1 p2 p3 p4 (by linarith [hq.1]) (by linarith [hq.2]),
      hb a ha⟩
  · intro ε hε
    obtain ⟨δ, hδ, hle, hb⟩ := interp_continuous_half p1 p2 p3 p4 ε hε
    refine ⟨δ, hδ, fun a ha => ?_⟩
    have hq := abs_lt.mp (lt_of_lt_of_le ha hle)
    exact ⟨_, computeCoordinates_at s a p1 p2 p3 p4 (by linarith [hq.1]) (by linarith [hq.2]),
      hb a ha⟩
  · intro ε hε
    obtain ⟨δ, hδ, hle, hb⟩ := interp_continuous_three_quarters p1 p2 p3 p4 ε hε
    refine ⟨δ, hδ, fun a ha => ?_⟩
    have hq := abs_lt.mp (lt_of_lt_of_le ha hle)
    exact ⟨_, computeCoordinates_at s a p1 p2 p3 p4 (by linarith [hq.1]) (by linarith [hq.2]),
      hb a ha⟩

theorem computeCoordinates_boundaries_witness :
    (0 : ℚ) < 1/10 ∧
    (∃ δ : ℚ, 0 < δ ∧ ∀ a : ℚ, |a - 1/4| < δ →
      ∃ r, ({ sampleState with _angle := a } : Basic4DPlugin)._computeCoordinates
          ⟨1, 2, 3⟩ ⟨5, 6, 7⟩ ⟨0, 8, 0⟩ ⟨9, 9, 9⟩ = some r ∧
        closeTo (1/10) r ⟨1, 2, 3⟩) ∧
    ((1 : ℚ) / 4 ≤ 3/8 ∧ (3 : ℚ) / 8 < 1/2) ∧
    ({ sampleState with _angle := 3/8 } : Basic4DPlugin)._computeCoordinates
      ⟨1, 2, 3⟩ ⟨5, 6, 7⟩ ⟨0, 8, 0⟩ ⟨9, 9, 9⟩ = some (branch1 (3/8) ⟨1, 2, 3⟩ ⟨5, 6, 7⟩) :=
  ⟨by norm_num,
    (computeCoordinates_boundaries sampleState ⟨1, 2, 3⟩ ⟨5, 6, 7⟩ ⟨0, 8, 0⟩
      ⟨9, 9, 9⟩).2.2.2.2.2.2.2.2.2.2.1 (1/10) (by norm_num),
    ⟨by norm_num, by norm_num⟩,
    (computeCoordinates_boundaries sampleState ⟨1, 2, 3⟩ ⟨5, 6, 7⟩ ⟨0, 8, 0⟩
      ⟨9, 9, 9⟩).2.2.2.2.2.2.2.1 (3/8) (by norm_num) (by norm_num)⟩

/-- C10: at phase 0 the interpolator returns p4; for a phase in [3/4, 1) each
coordinate of the result differs from that of p4 by exactly
`(p3 - p4) * 4 * (1 - phase)`, which becomes smaller than any positive bound as
the phase approaches 1 from below; and at phase 0 vertex slot 0 of the builder,
the interpolation of (tesseract[8], tesseract[9], tesseract[1], tesseract[0]),
is tesseract[0] = (-1/2, -1/2, -1/2). -/
theorem computeCoordinates_loop_closure (s : Basic4DPlugin) (p1 p2 p3 p4 : Vector3f) :
    ({ s with _angle := 0 } : Basic4DPlugin)._computeCoordinates p1 p2 p3 p4 = some p4 ∧
    (3/4 ≤ s._angle → s._angle < 1 →
      ∃ r, s._computeCoordinates p1 p2 p3 p4 = some r ∧
        r.x - p4.x = (p3.x - p4.x) * 4 * (1 - s._angle) ∧
        r.y - p4.y = (p3.y - p4.y) * 4 * (1 - s._angle) ∧
        r.z - p4.z = (p3.z - p4.z) * 4 * (1 - s._angle)) ∧
    (∀ ε : ℚ, 0 < ε → ∃ δ : ℚ, 0 < δ ∧ ∀ a : ℚ, 3/4 ≤ a → a < 1 → 1 - a < δ →
      ∃ r, ({ s with _angle := a } : Basic4DPlugin)._computeCoordinates p1 p2 p3 p4 = some r ∧
        |r.x - p4.x| < ε ∧ |r.y - p4.y| < ε ∧ |r.z - p4.z| < ε) ∧
    (∃ vs, ({ s with _angle := 0 } : Basic4DPlugin).vertices = some vs ∧
      vs[0]? = ({ s with _angle := 0 } : Basic4DPlugin)._computeCoordinates
        (T 8) (T 9) (T 1) (T 0) ∧
      vs[0]? = some (T 0) ∧ vs[0]? = some ⟨-1/2, -1/2, -1/2⟩) := by
  have key : ∀ a : ℚ, 3/4 ≤ a → a < 1 →
      ({ s with _angle := a } : Basic4DPlugin)._computeCoordinates p1 p2 p3 p4 =
        some (branch3 a p3 p4) := by
    intro a h0 h1
    rw [computeCoordinates_eq _ p1 p2 p3 p4 (by simp only; linarith) h1]
    simp only [interp]
    rw [if_neg (by linarith), if_neg (by linarith), if_neg (by linarith)]
  refine ⟨?_, ?_, ?_, ?_⟩
  · rw [computeCoordinates_eq _ p1 p2 p3 p4 (le_refl _) (by norm_num)]
    norm_num [interp, branch0]
  · intro h0 h1
    refine ⟨branch3 s._angle p3 p4, key s._angle h0 h1, ?_, ?_, ?_⟩ <;>
      simp only [branch3] <;> ring
  · intro ε hε
    obtain ⟨δx, hx, hxb⟩ := closing_gap (p3.x - p4.x) ε hε
    obtain ⟨δy, hy, hyb⟩ := closing_gap (p3.y - p4.y) ε hε
    obtain ⟨δz, hz, hzb⟩ := closing_gap (p3.z - p4.z) ε hε
    refine ⟨min δx (min δy δz), lt_min hx (lt_min hy hz), ?_⟩
    intro a h0 h1 hd
    have hdx : 1 - a < δx := lt_of_lt_of_le hd (min_le_left _ _)
    have hdy : 1 - a < δy :=
      lt_of_lt_of_le hd (le_trans (min_le_right _ _) (min_le_left _ _))
    have hdz : 1 - a < δz :=
      lt_of_lt_of_le hd (le_trans (min_le_right _ _) (min_le_right _ _))
    refine ⟨branch3 a p3 p4, key a h0 h1, ?_, ?_, ?_⟩
    · have e : (branch3 a p3 p4).x - p4.x = (p3.x - p4.x) * 4 * (1 - a) := by
        simp only [branch3]; ring
      rw [e]; exact hxb a h1 hdx
    · have e : (branch3 a p3 p4).y - p4.y = (p3.y - p4.y) * 4 * (1 - a) := by
        simp only [branch3]; ring
      rw [e]; exact hyb a h1 hdy
    · have e : (branch3 a p3 p4).z - p4.z = (p3.z - p4.z) * 4 * (1 - a) := by
        simp only [branch3]; ring
      rw [e]; exact hzb a h1 hdz
  · have e0 : interp 0 (T 8) (T 9) (T 1) (T 0) = T 0 := by
      norm_num [interp, branch0]
    have t0 : T 0 = ⟨-1/2, -1/2, -1/2⟩ := by
      simp [T, tesseract]
    refine ⟨_, vertices_eq _ (le_refl _) (by norm_num), ?_, ?_, ?_⟩
    · rw [computeCoordinates_eq _ _ _ _ _ (le_refl _) (by norm_num)]
      rfl
    · simp only [vertexList, List.getElem?_cons_zero, e0]
    · simp only [vertexList, List.getElem?_cons_zero, e0]
      rw [t0]

theorem computeCoordinates_loop_closure_witness :
    (3 : ℚ) / 4 ≤ ({ _angle := 7/8 } : Basic4DPlugin)._angle ∧
    ({ _angle := 7/8 } : Basic4DPlugin)._angle < 1 ∧
    ∃ r, ({ _angle := 7/8 } : Basic4DPlugin)._computeCoordinates
        ⟨1, 2, 3⟩ ⟨5, 6, 7⟩ ⟨0, 8, 0⟩ ⟨9, 9, 9⟩ = some r ∧
      r.x - 9 = (0 - 9) * 4 * (1 - ({ _angle := 7/8 } : Basic4DPlugin)._angle) ∧
      r.y - 9 = (8 - 9) * 4 * (1 - ({ _angle := 7/8 } : Basic4DPlugin)._angle) ∧
      r.z - 9 = (0 - 9) * 4 * (1 - ({ _angle := 7/8 } : Basic4DPlugin)._angle) :=
  ⟨by norm_num, by norm_num,
    (computeCoordinates_loop_closure { _angle := 7/8 } ⟨1, 2, 3⟩ ⟨5, 6, 7⟩ ⟨0, 8, 0⟩
      ⟨9, 9, 9⟩).2.1 (by norm_num) (by norm_num)⟩

/-- C11 (as stated, refuted): with the phase of frame 90, 90/360 = 1/4, vertex
slot 0 of the builder is (-1, -1, -1), which is not tesseract[9] = (1, -1, -1). -/
theorem slot0_quarter_not_second_point :
    ((90 : Nat) : ℚ) / 360 = 1/4 ∧ T 9 = ⟨1, -1, -1⟩ ∧
    ∃ vs, ({ _angle := ((90 : Nat) : ℚ) / 360 } : Basic4DPlugin).vertices = some vs ∧
      vs[0]? = some ⟨-1, -1, -1⟩ ∧ vs[0]? ≠ some (T 9) := by
  have h90 : ((90 : Nat) : ℚ) / 360 = 1/4 := by norm_num
  have t9 : T 9 = ⟨1, -1, -1⟩ := by simp [T, tesseract]
  have e : interp (1/4) (T 8) (T 9) (T 1) (T 0) = ⟨-1, -1, -1⟩ := by
    norm_num [interp, branch1, T, tesseract]
  refine ⟨h90, t9, ?_⟩
  rw [h90]
  refine ⟨_, vertices_eq _ (by norm_num) (by norm_num), ?_, ?_⟩
  · simp only [vertexList, List.getElem?_cons_zero, e]
  · simp only [vertexList, List.getElem?_cons_zero, e]
    rw [t9]
    intro h
    simp only [Option.some.injEq, Vector3f.mk.injEq] at h
    norm_num at h

/-- C11 (amended): with the phase of frame 90, 90/360 = 1/4, vertex slot 0 of
the builder is exactly the 1st point of its quadruple, tesseract[8] =
(-1, -1, -1). -/
theorem slot0_quarter_first_point :
    ((90 : Nat) : ℚ) / 360 = 1/4 ∧ T 8 = ⟨-1, -1, -1⟩ ∧
    ∃ vs, ({ _angle := ((90 : Nat) : ℚ) / 360 } : Basic4DPlugin).vertices = some vs ∧
      vs[0]? = ({ _angle := ((90 : Nat) : ℚ) / 360 } : Basic4DPlugin)._computeCoordinates
        (T 8) (T 9) (T 1) (T 0) ∧
      vs[0]? = some (T 8) := by
  have h90 : ((90 : Nat) : ℚ) / 360 = 1/4 := by norm_num
  have t8 : T 8 = ⟨-1, -1, -1⟩ := by simp [T, tesseract]
  have e : interp (1/4) (T 8) (T 9) (T 1) (T 0) = T 8 := by
    norm_num [interp, branch1]
  refine ⟨h90, t8, ?_⟩
  rw [h90]
  refine ⟨_, vertices_eq _ (by norm_num) (by norm_num), ?_, ?_⟩
  · rw [computeCoordinates_eq _ _ _ _ _ (by norm_num) (by norm_num)]
    rfl
  · simp only [vertexList, List.getElem?_cons_zero, e]

/-- C13: the interpolator returns a point if and only if 0 <= _angle < 1; each
branch condition selects its own return expression, the four conditions are
pairwise disjoint and together cover exactly [0, 1), and for an angle below 0
or at least 1 there is no result. -/
theorem computeCoordinates_defined_iff (s : Basic4DPlugin) (p1 p2 p3 p4 : Vector3f) :
    ((s._computeCoordinates p1 p2 p3 p4).isSome ↔ (0 ≤ s._angle ∧ s._angle < 1)) ∧
    ((s._angle < 0 ∨ 1 ≤ s._angle) → s._computeCoordinates p1 p2 p3 p4 = none) ∧
    ((s._angle ≥ 0 ∧ s._angle < 1/4) →
      s._computeCoordinates p1 p2 p3 p4 = some (branch0 s._angle p1 p4)) ∧
    ((s._angle ≥ 1/4 ∧ s._angle < 1/2) →
      s._computeCoordinates p1 p2 p3 p4 = some (branch1 s._angle p1 p2)) ∧
    ((s._angle ≥ 1/2 ∧ s._angle < 3/4) →
      s._computeCoordinates p1 p2 p3 p4 = some (branch2 s._angle p2 p3)) ∧
    ((s._angle ≥ 3/4 ∧ s._angle < 1) →
      s._computeCoordinates p1 p2 p3 p4 = some (branch3 s._angle p3 p4)) ∧
    ¬ ((s._angle ≥ 0 ∧ s._angle < 1/4) ∧ (s._angle ≥ 1/4 ∧ s._angle < 1/2)) ∧
    ¬ ((s._angle ≥ 0 ∧ s._angle < 1/4) ∧ (s._angle ≥ 1/2 ∧ s._angle < 3/4)) ∧
    ¬ ((s._angle ≥ 0 ∧ s._angle < 1/4) ∧ (s._angle ≥ 3/4 ∧ s._angle < 1)) ∧
    ¬ ((s._angle ≥ 1/4 ∧ s._angle < 1/2) ∧ (s._angle ≥ 1/2 ∧ s._angle < 3/4)) ∧
    ¬ ((s._angle ≥ 1/4 ∧ s._angle < 1/2) ∧ (s._angle ≥ 3/4 ∧ s._angle < 1)) ∧
    ¬ ((s._angle ≥ 1/2 ∧ s._angle < 3/4) ∧ (s._angle ≥ 3/4 ∧ s._angle < 1)) ∧
    (((s._angle ≥ 0 ∧ s._angle < 1/4) ∨ (s._angle ≥ 1/4 ∧ s._angle < 1/2) ∨
      (s._angle ≥ 1/2 ∧ s._angle < 3/4) ∨ (s._angle ≥ 3/4 ∧ s._angle < 1)) ↔
      (0 ≤ s._angle ∧ s._angle < 1)) := by
  have hnone : (s._angle < 0 ∨ 1 ≤ s._angle) → s._computeCoordinates p1 p2 p3 p4 = none := by
    intro h
    unfold _computeCoordinates
    have d0 : ¬ (s._angle ≥ 0 ∧ s._angle < 1/4) := by
      rintro ⟨a, b⟩; rcases h with h | h <;> linarith
    have d1 : ¬ (s._angle ≥ 1/4 ∧ s._angle < 1/2) := by
      rintro ⟨a, b⟩; rcases h with h | h <;> linarith
    have d2 : ¬ (s._angle ≥ 1/2 ∧ s._angle < 3/4) := by
      rintro ⟨a, b⟩; rcases h with h | h <;> linarith
    have d3 : ¬ (s._angle ≥ 3/4 ∧ s._angle < 1) := by
      rintro ⟨a, b⟩; rcases h with h | h <;> linarith
    rw [if_neg d0, if_neg d1, if_neg d2, if_neg d3]
  refine ⟨?_, hnone, ?_, ?_, ?_, ?_, ?_, ?_, ?_, ?_, ?_, ?_, ?_⟩
  · constructor
    · intro h
      by_contra hc
      have hout : s._angle < 0 ∨ 1 ≤ s._angle := by
        by_cases c : 0 ≤ s._angle
        · exact Or.inr (not_lt.mp fun h1 => hc ⟨c, h1⟩)
        · exact Or.inl (not_le.mp c)
      rw [hnone hout] at h
      simp at h
    · rintro ⟨h0, h1⟩
      rw [computeCoordinates_eq s p1 p2 p3 p4 h0 h1]
      rfl
  · intro c
    unfold _computeCoordinates
    rw [if_pos c]
  · intro c
    have d0 : ¬ (s._angle ≥ 0 ∧ s._angle < 1/4) := by rintro ⟨a, b⟩; linarith [c.1]
    unfold _computeCoordinates
    rw [if_neg d0, if_pos c]
  · intro c
    have d0 : ¬ (s._angle ≥ 0 ∧ s._angle < 1/4) := by rintro ⟨a, b⟩; linarith [c.1]
    have d1 : ¬ (s._angle ≥ 1/4 ∧ s._angle < 1/2) := by rintro ⟨a, b⟩; linarith [c.1]
    unfold _computeCoordinates
    rw [if_neg d0, if_neg d1, if_pos c]
  · intro c
    have d0 : ¬ (s._angle ≥ 0 ∧ s._angle < 1/4) := by rintro ⟨a, b⟩; linarith [c.1]
    have d1 : ¬ (s._angle ≥ 1/4 ∧ s._angle < 1/2) := by rintro ⟨a, b⟩; linarith [c.1]
    have d2 : ¬ (s._angle ≥ 1/2 ∧ s._angle < 3/4) := by rintro ⟨a, b⟩; linarith [c.1]
    unfold _computeCoordinates
    rw [if_neg d0, if_neg d1, if_neg d2, if_pos c]
  · rintro ⟨⟨_, a⟩, ⟨b, _⟩⟩; linarith
  · rintro ⟨⟨_, a⟩, ⟨b, _⟩⟩; linarith
  · rintro ⟨⟨_, a⟩, ⟨b, _⟩⟩; linarith
  · rintro ⟨⟨_, a⟩, ⟨b, _⟩⟩; linarith
  · rintro ⟨⟨_, a⟩, ⟨b, _⟩⟩; linarith
  · rintro ⟨⟨_, a⟩, ⟨b, _⟩⟩; linarith
  · constructor
    · rintro (⟨a, b⟩ | ⟨a, b⟩ | ⟨a, b⟩ | ⟨a, b⟩) <;> constructor <;> linarith
    · rintro ⟨h0, h1⟩
      by_cases c0 : s._angle < 1/4
      · exact Or.inl ⟨h0, c0⟩
      · by_cases c1 : s._angle < 1/2
        · exact Or.inr (Or.inl ⟨not_lt.mp c0, c1⟩)
        · by_cases c2 : s._angle < 3/4
          · exact Or.inr (Or.inr (Or.inl ⟨not_lt.mp c1, c2⟩))
          · exact Or.inr (Or.inr (Or.inr ⟨not_lt.mp c2, h1⟩))

theorem computeCoordinates_defined_iff_witness :
    (({ _angle := 5/4 } : Basic4DPlugin)._angle < 0 ∨
      1 ≤ ({ _angle := 5/4 } : Basic4DPlugin)._angle) ∧
    ({ _angle := 5/4 } : Basic4DPlugin)._computeCoordinates
      ⟨1, 2, 3⟩ ⟨5, 6, 7⟩ ⟨0, 8, 0⟩ ⟨9, 9, 9⟩ = none ∧
    (({ _angle := 5/8 } : Basic4DPlugin)._angle ≥ 1/2 ∧
      ({ _angle := 5/8 } : Basic4DPlugin)._angle < 3/4) ∧
    ({ _angle := 5/8 } : Basic4DPlugin)._computeCoordinates
      ⟨1, 2, 3⟩ ⟨5, 6, 7⟩ ⟨0, 8, 0⟩ ⟨9, 9, 9⟩ = some (branch2 (5/8) ⟨5, 6, 7⟩ ⟨0, 8, 0⟩) :=
  ⟨Or.inr (by norm_num),
    (computeCoordinates_defined_iff { _angle := 5/4 } ⟨1, 2, 3⟩ ⟨5, 6, 7⟩ ⟨0, 8, 0⟩
      ⟨9, 9, 9⟩).2.1 (Or.inr (by norm_num)),
    ⟨by norm_num, by norm_num⟩,
    (computeCoordinates_defined_iff { _angle := 5/8 } ⟨1, 2, 3⟩ ⟨5, 6, 7⟩ ⟨0, 8, 0⟩
      ⟨9, 9, 9⟩).2.2.2.2.1 ⟨by norm_num, by norm_num⟩⟩

/-- C14 (evaluation at the failing input): on a plugin object with no bound
model the builder does not return a state: after the log line it goes on to
dereference the null `_model`, so the call, and a tick that triggers it, has no
defined result, whereas a bound model gives one. -/
theorem createGeometry_null_model (s : Basic4DPlugin) :
    (s._model = none → _createGeometry s = none) ∧
    _createGeometry ({} : Basic4DPlugin) = none ∧
    preRender ({} : Basic4DPlugin) 10 = none ∧
    (∃ t, _createGeometry ({ _model := some Model.empty } : Basic4DPlugin) = some t) := by
  have h : ∀ u : Basic4DPlugin, u._model = none → _createGeometry u = none := by
    intro u hu
    obtain ⟨a, mo, lg, b⟩ := u
    simp only at hu
    subst hu
    rfl
  refine ⟨h s, h _ rfl, ?_, ⟨_, init_eq⟩⟩
  have hne : ((10 : Nat) : ℚ) / 360 ≠ ({} : Basic4DPlugin)._angle := by
    show ((10 : Nat) : ℚ) / 360 ≠ 0
    norm_num
  unfold preRender
  simp only [ne_eq, hne, not_false_eq_true, if_true, h ({} : Basic4DPlugin) rfl]
  rfl

theorem interp_shift (a : ℚ) (q1 q2 q3 q4 : Vector3f) (h0 : 0 ≤ a) (h1 : a < 3/4) :
    interp (a + 1/4) q1 q2 q3 q4 = interp a q2 q3 q4 q1 := by
  unfold interp
  have n0 : ¬ (a + 1/4 < 1/4) := by linarith
  rw [if_neg n0]
  by_cases c0 : a < 1/4
  · rw [if_pos (by linarith : a + 1/4 < 1/2), if_pos c0]
    simp only [branch0, branch1, Vector3f.mk.injEq]
    exact ⟨by ring, by ring, by ring⟩
  · rw [if_neg (by linarith : ¬ (a + 1/4 < 1/2)), if_neg c0]
    by_cases c1 : a < 1/2
    · rw [if_pos (by linarith : a + 1/4 < 3/4), if_pos c1]
      simp only [branch1, branch2, Vector3f.mk.injEq]
      exact ⟨by ring, by ring, by ring⟩
    · rw [if_neg (by linarith : ¬ (a + 1/4 < 3/4)), if_neg c1, if_pos h1]
      simp only [branch2, branch3, Vector3f.mk.injEq]
      exact ⟨by ring, by ring, by ring⟩

theorem vertexList_shift (a : ℚ) (h0 : 0 ≤ a) (h1 : a < 3/4) :
    vertexList (a + 1/4) = sigma.map fun j => (vertexList a).getD j default := by
  simp only [vertexList, interp_shift _ _ _ _ _ h0 h1]
  rfl

theorem vertexList_range (a : ℚ) :
    vertexList a = (List.range 16).map fun j => (vertexList a).getD j default := rfl

theorem sigma_perm : sigma.Perm (List.range 16) := by decide

theorem sigma_lt : ∀ i, i < 16 → sigmaAt i < 16 := by decide

theorem vertexList_slots (a : ℚ) : ∀ i, i < 16 →
    (vertexList a)[i]? =
      some (interp a (T (sigmaAt i)) (T (sigmaAt (sigmaAt i)))
        (T (sigmaAt (sigmaAt (sigmaAt i)))) (T i)) := by
  intro i hi
  interval_cases i <;> rfl

theorem sigma_get : ∀ i, i < 16 → sigma[i]? = some (sigmaAt i) := by decide

theorem interp_zero (p1 p2 p3 p4 : Vector3f) : interp 0 p1 p2 p3 p4 = p4 := by
  norm_num [interp, branch0]

theorem vertexList_zero : vertexList 0 = tesseract := by
  simp only [vertexList, interp_zero]
  rfl

theorem tesseract_get : ∀ i, i < 16 → tesseract[i]? = some (T i) := by
  intro i hi
  interval_cases i <;> rfl

/-- C15: `sigma` is a permutation of the slots 0..15 with `sigma^4 = id`; for a
phase in [0,1) slot i interpolates the quadruple (tesseract[sigma i],
tesseract[sigma^2 i], tesseract[sigma^3 i], tesseract[i]); and for a phase in
[0, 3/4) vertex i at phase + 1/4 is vertex sigma(i) at phase, so the 16 vertices
at phase + 1/4 are a permutation of those at phase. -/
theorem vertices_quarter_turn (s : Basic4DPlugin) :
    sigma.Perm (List.range 16) ∧
    (∀ i, i < 16 → sigmaAt (sigmaAt (sigmaAt (sigmaAt i))) = i) ∧
    (0 ≤ s._angle → s._angle < 1 → ∃ vs, s.vertices = some vs ∧ ∀ i, i < 16 →
      vs[i]? = s._computeCoordinates (T (sigmaAt i)) (T (sigmaAt (sigmaAt i)))
        (T (sigmaAt (sigmaAt (sigmaAt i)))) (T i)) ∧
    (0 ≤ s._angle → s._angle < 3/4 → ∃ vs vs', s.vertices = some vs ∧
      ({ s with _angle := s._angle + 1/4 } : Basic4DPlugin).vertices = some vs' ∧
      (∀ i, i < 16 → ∃ v, vs'[i]? = some v ∧ vs[sigmaAt i]? = some v) ∧
      vs'.Perm vs) := by
  refine ⟨sigma_perm, by decide, ?_, ?_⟩
  · intro h0 h1
    refine ⟨_, vertices_eq s h0 h1, ?_⟩
    intro i hi
    rw [vertexList_slots _ i hi, computeCoordinates_eq s _ _ _ _ h0 h1]
  · intro h0 h1
    refine ⟨_, _, vertices_eq s h0 (by linarith),
      vertices_eq _ (by simp only; linarith) (by simp only; linarith), ?_, ?_⟩
    · intro i hi
      refine ⟨(vertexList s._angle).getD (sigmaAt i) default, ?_,
        vertexList_get _ _ (sigma_lt i hi)⟩
      simp only [vertexList_shift _ h0 h1, List.getElem?_map, sigma_get i hi, Option.map_some']
    · simp only [vertexList_shift _ h0 h1]
      nth_rewrite 2 [vertexList_range s._angle]
      exact List.Perm.map _ sigma_perm

theorem vertices_quarter_turn_witness :
    0 ≤ sampleState._angle ∧ sampleState._angle < 3/4 ∧
    ∃ vs vs', sampleState.vertices = some vs ∧
      ({ sampleState with _angle := sampleState._angle + 1/4 } : Basic4DPlugin).vertices =
        some vs' ∧
      (∀ i, i < 16 → ∃ v, vs'[i]? = some v ∧ vs[sigmaAt i]? = some v) ∧
      vs'.Perm vs :=
  ⟨sampleState_nonneg, by norm_num [sampleState],
    (vertices_quarter_turn sampleState).2.2.2 sampleState_nonneg (by norm_num [sampleState])⟩

/-- C16: at phase 0 the computed vertices are the table `tesseract` itself: the
4th point of slot i's quadruple is tesseract[i], vertex i is tesseract[i], and
after the builder sphere i is centred on tesseract[i] (radius 1/10). -/
theorem vertices_phase_zero (s : Basic4DPlugin) (m : Model) (hm : s._model = some m)
    (ha : s._angle = 0) :
    ∃ vs s' m', s.vertices = some vs ∧ vs = tesseract ∧
      _createGeometry s = some s' ∧ s'._model = some m' ∧
      ∀ i, i < 16 →
        vs[i]? = s._computeCoordinates (T (sigmaAt i)) (T (sigmaAt (sigmaAt i)))
          (T (sigmaAt (sigmaAt (sigmaAt i)))) (T i) ∧
        tesseract[i]? = some (T i) ∧ vs[i]? = some (T i) ∧
        (m'.spheres VERTEX_MATERIAL_ID)[i]? = some ⟨T i, 1/10⟩ := by
  have h0 : 0 ≤ s._angle := by rw [ha]
  have h1 : s._angle < 1 := by rw [ha]; norm_num
  refine ⟨_, _, _, vertices_eq s h0 h1, ?_, createGeometry_eq s m hm h0 h1, rfl, ?_⟩
  · rw [ha, vertexList_zero]
  · intro i hi
    refine ⟨?_, tesseract_get i hi, ?_, ?_⟩
    · rw [vertexList_slots _ i hi, computeCoordinates_eq s _ _ _ _ h0 h1]
    · rw [ha, vertexList_zero]
      exact tesseract_get i hi
    · rw [built_spheres, ha, vertexList_zero, List.getElem?_map, tesseract_get i hi]
      rfl

theorem vertices_phase_zero_witness :
    ({ _model := some sampleModel } : Basic4DPlugin)._model = some sampleModel ∧
    ({ _model := some sampleModel } : Basic4DPlugin)._angle = 0 ∧
    ∃ vs s' m', ({ _model := some sampleModel } : Basic4DPlugin).vertices = some vs ∧
      vs = tesseract ∧
      _createGeometry ({ _model := some sampleModel } : Basic4DPlugin) = some s' ∧
      s'._model = some m' ∧
      ∀ i, i < 16 →
        vs[i]? = ({ _model := some sampleModel } : Basic4DPlugin)._computeCoordinates
          (T (sigmaAt i)) (T (sigmaAt (sigmaAt i)))
          (T (sigmaAt (sigmaAt (sigmaAt i)))) (T i) ∧
        tesseract[i]? = some (T i) ∧ vs[i]? = some (T i) ∧
        (m'.spheres VERTEX_MATERIAL_ID)[i]? = some ⟨T i, 1/10⟩ :=
  ⟨rfl, rfl, vertices_phase_zero { _model := some sampleModel } sampleModel rfl rfl⟩

theorem interp_quarter (a : ℚ) (p1 p2 p3 p4 : Vector3f) (h0 : 0 ≤ a) (h1 : a < 1) :
    ∃ k : Nat, k < 4 ∧ (k : ℚ) / 4 ≤ a ∧ a < ((k : ℚ) + 1) / 4 ∧
      interp a p1 p2 p3 p4 =
        specQuarter a k (specEndpoints k p1 p2 p3 p4).1 (specEndpoints k p1 p2 p3 p4).2 := by
  unfold interp
  by_cases c0 : a < 1/4
  · refine ⟨0, by norm_num, by norm_num; exact h0, by norm_num; linarith, ?_⟩
    rw [if_pos c0]
    simp [specQuarter, specEndpoints, branch0]
  · rw [if_neg c0]
    by_cases c1 : a < 1/2
    · refine ⟨1, by norm_num, by norm_num; linarith, by norm_num; linarith, ?_⟩
      rw [if_pos c1]
      simp [specQuarter, specEndpoints, branch1]
    · rw [if_neg c1]
      by_cases c2 : a < 3/4
      · refine ⟨2, by norm_num, by norm_num; linarith, by norm_num; linarith, ?_⟩
        rw [if_pos c2]
        simp [specQuarter, specEndpoints, branch2]
        norm_num
      · refine ⟨3, by norm_num, by norm_num; linarith, by norm_num; linarith, ?_⟩
        rw [if_neg c2]
        simp [specQuarter, specEndpoints, branch3]

theorem convex_between (A B t : ℚ) (h0 : 0 ≤ t) (h1 : t ≤ 1) :
    min A B ≤ (1 - t) * A + t * B ∧ (1 - t) * A + t * B ≤ max A B := by
  rcases le_total A B with h | h
  · rw [min_eq_left h, max_eq_right h]
    constructor <;> nlinarith
  · rw [min_eq_right h, max_eq_left h]
    constructor <;> nlinarith

theorem convex_in_range (A B t : ℚ) (h0 : 0 ≤ t) (h1 : t ≤ 1)
    (hA : -1 ≤ A ∧ A ≤ 1) (hB : -1 ≤ B ∧ B ≤ 1) :
    -1 ≤ (1 - t) * A + t * B ∧ (1 - t) * A + t * B ≤ 1 := by
  obtain ⟨l, u⟩ := convex_between A B t h0 h1
  exact ⟨le_trans (le_min hA.1 hB.1) l, le_trans u (max_le hA.2 hB.2)⟩

theorem specQuarter_convex (a : ℚ) (k : Nat) (A B : Vector3f) :
    (specQuarter a k A B).x = (1 - (a - (k : ℚ) / 4) * 4) * A.x + (a - (k : ℚ) / 4) * 4 * B.x ∧
    (specQuarter a k A B).y = (1 - (a - (k : ℚ) / 4) * 4) * A.y + (a - (k : ℚ) / 4) * 4 * B.y ∧
    (specQuarter a k A B).z = (1 - (a - (k : ℚ) / 4) * 4) * A.z + (a - (k : ℚ) / 4) * 4 * B.z := by
  simp only [specQuarter]
  exact ⟨by ring, by ring, by ring⟩

theorem interp_inUnitCube (a : ℚ) (p1 p2 p3 p4 : Vector3f) (h0 : 0 ≤ a) (h1 : a < 1)
    (c1 : inUnitCube p1) (c2 : inUnitCube p2) (c3 : inUnitCube p3) (c4 : inUnitCube p4) :
    inUnitCube (interp a p1 p2 p3 p4) := by
  obtain ⟨k, hk, hl, hu, e⟩ := interp_quarter a p1 p2 p3 p4 h0 h1
  have t0 : 0 ≤ (a - (k : ℚ) / 4) * 4 := by linarith
  have t1 : (a - (k : ℚ) / 4) * 4 ≤ 1 := by linarith
  have hA : inUnitCube (specEndpoints k p1 p2 p3 p4).1 := by
    interval_cases k <;> simp only [specEndpoints] <;> assumption
  have hB : inUnitCube (specEndpoints k p1 p2 p3 p4).2 := by
    interval_cases k <;> simp only [specEndpoints] <;> assumption
  obtain ⟨ex, ey, ez⟩ := specQuarter_convex a k (specEndpoints k p1 p2 p3 p4).1
    (specEndpoints k p1 p2 p3 p4).2
  rw [e]
  unfold inUnitCube
  rw [ex, ey, ez]
  exact ⟨convex_in_range _ _ _ t0 t1 hA.1 hB.1, convex_in_range _ _ _ t0 t1 hA.2.1 hB.2.1,
    convex_in_range _ _ _ t0 t1 hA.2.2 hB.2.2⟩

theorem default_inUnitCube : inUnitCube (default : Vector3f) := by
  show inUnitCube ⟨0, 0, 0⟩
  norm_num [inUnitCube]

theorem T_inUnitCube (i : Nat) : inUnitCube (T i) := by
  by_cases h : i < 16
  · interval_cases i <;> norm_num [inUnitCube, T, tesseract]
  · have hl : tesseract.length ≤ i := not_lt.mp h
    unfold T
    rw [List.getD_eq_default _ _ hl]
    exact default_inUnitCube

theorem vertexList_inUnitCube (a : ℚ) (h0 : 0 ≤ a) (h1 : a < 1) :
    ∀ v ∈ vertexList a, inUnitCube v := by
  intro v hv
  simp only [vertexList, List.mem_cons, List.mem_singleton, List.not_mem_nil, or_false] at hv
  rcases hv with h | h | h | h | h | h | h | h | h | h | h | h | h | h | h | h <;>
    subst h <;>
    exact interp_inUnitCube a _ _ _ _ h0 h1 (T_inUnitCube _) (T_inUnitCube _)
      (T_inUnitCube _) (T_inUnitCube _)

theorem getD_inUnitCube (l : List Vector3f) (h : ∀ v ∈ l, inUnitCube v) (j : Nat) :
    inUnitCube (l.getD j default) := by
  by_cases hj : j < l.length
  · rw [List.getD_eq_getElem _ _ hj]
    exact h _ (List.getElem_mem hj)
  · rw [List.getD_eq_default _ _ (not_lt.mp hj)]
    exact default_inUnitCube

theorem joints_first : ∀ k, k < 4 →
    (joints.map fun e => e.1)[k]? = (joints.map fun e => e.1)[4 + k]? ∧
    (joints.map fun e => e.1)[k]? = (joints.map fun e => e.1)[12 + k]? ∧
    (joints.map fun e => e.1)[8 + k]? = (joints.map fun e => e.1)[16 + k]? ∧
    (joints.map fun e => e.1)[20 + k]? = (joints.map fun e => e.1)[24 + k]? := by decide

theorem meshVertexList_get (vs : List Vector3f) (i : Nat) :
    (meshVertexList vs)[i]? =
      ((joints.map fun e => e.1)[i]?).map fun j => vs.getD j default := by
  simp only [meshVertexList, List.getElem?_map, Option.map_map]
  rfl

/-- C17: for a phase in [0,1) each coordinate of the interpolated point is a
convex combination, with weight t = (phase - k/4) * 4 in [0,1), of the same
coordinate of the two points of the active quarter k, so it lies between them;
and after the builder every computed vertex, sphere centre, cylinder endpoint
and mesh vertex has all coordinates in [-1, 1]. -/
theorem computeCoordinates_convex (s : Basic4DPlugin) (p1 p2 p3 p4 : Vector3f)
    (h0 : 0 ≤ s._angle) (h1 : s._angle < 1) :
    (∃ (r : Vector3f) (k : Nat) (t : ℚ), k < 4 ∧ (k : ℚ) / 4 ≤ s._angle ∧ s._angle < ((k : ℚ) + 1) / 4 ∧
      t = (s._angle - (k : ℚ) / 4) * 4 ∧ 0 ≤ t ∧ t < 1 ∧
      s._computeCoordinates p1 p2 p3 p4 = some r ∧
      (r.x = (1 - t) * (specEndpoints k p1 p2 p3 p4).1.x + t * (specEndpoints k p1 p2 p3 p4).2.x ∧
        min (specEndpoints k p1 p2 p3 p4).1.x (specEndpoints k p1 p2 p3 p4).2.x ≤ r.x ∧
        r.x ≤ max (specEndpoints k p1 p2 p3 p4).1.x (specEndpoints k p1 p2 p3 p4).2.x) ∧
      (r.y = (1 - t) * (specEndpoints k p1 p2 p3 p4).1.y + t * (specEndpoints k p1 p2 p3 p4).2.y ∧
        min (specEndpoints k p1 p2 p3 p4).1.y (specEndpoints k p1 p2 p3 p4).2.y ≤ r.y ∧
        r.y ≤ max (specEndpoints k p1 p2 p3 p4).1.y (specEndpoints k p1 p2 p3 p4).2.y) ∧
      (r.z = (1 - t) * (specEndpoints k p1 p2 p3 p4).1.z + t * (specEndpoints k p1 p2 p3 p4).2.z ∧
        min (specEndpoints k p1 p2 p3 p4).1.z (specEndpoints k p1 p2 p3 p4).2.z ≤ r.z ∧
        r.z ≤ max (specEndpoints k p1 p2 p3 p4).1.z (specEndpoints k p1 p2 p3 p4).2.z)) ∧
    (∀ m, s._model = some m → ∃ vs s' m', s.vertices = some vs ∧ vs.length = 16 ∧
      (∀ v ∈ vs, inUnitCube v) ∧
      _createGeometry s = some s' ∧ s'._model = some m' ∧
      (∀ sp ∈ m'.spheres VERTEX_MATERIAL_ID, inUnitCube sp.center) ∧
      (∀ c ∈ m'.cylinders EDGE_MATERIAL_ID, inUnitCube c.first ∧ inUnitCube c.second) ∧
      (∀ v ∈ (m'.trianglesMeshes FACE_MATERIAL_ID).vertices, inUnitCube v)) := by
  constructor
  · obtain ⟨k, hk, hl, hu, e⟩ := interp_quarter s._angle p1 p2 p3 p4 h0 h1
    have t0 : 0 ≤ (s._angle - (k : ℚ) / 4) * 4 := by linarith
    have t1 : (s._angle - (k : ℚ) / 4) * 4 < 1 := by linarith
    obtain ⟨ex, ey, ez⟩ := specQuarter_convex s._angle k (specEndpoints k p1 p2 p3 p4).1
      (specEndpoints k p1 p2 p3 p4).2
    refine ⟨_, k, _, hk, hl, hu, rfl, t0, t1,
      (computeCoordinates_eq s p1 p2 p3 p4 h0 h1).trans (congrArg some e), ?_, ?_, ?_⟩
    · rw [ex]; exact ⟨rfl, convex_between _ _ _ t0 (le_of_lt t1)⟩
    · rw [ey]; exact ⟨rfl, convex_between _ _ _ t0 (le_of_lt t1)⟩
    · rw [ez]; exact ⟨rfl, convex_between _ _ _ t0 (le_of_lt t1)⟩
  · intro m hm
    have hv := vertexList_inUnitCube s._angle h0 h1
    refine ⟨_, _, _, vertices_eq s h0 h1, rfl, hv, createGeometry_eq s m hm h0 h1, rfl,
      ?_, ?_, ?_⟩
    · intro sp hsp
      rw [built_spheres, List.mem_map] at hsp
      obtain ⟨v, hvm, rfl⟩ := hsp
      exact hv v hvm
    · intro c hc
      rw [built_cylinders, cylinderList, List.mem_map] at hc
      obtain ⟨e, _, rfl⟩ := hc
      exact ⟨getD_inUnitCube _ hv _, getD_inUnitCube _ hv _⟩
    · intro v hvm
      rw [built_mesh] at hvm
      simp only [meshVertexList, List.mem_map] at hvm
      obtain ⟨e, _, rfl⟩ := hvm
      exact getD_inUnitCube _ hv _

theorem computeCoordinates_convex_witness :
    0 ≤ sampleState._angle ∧ sampleState._angle < 1 ∧
    ∃ vs s' m', sampleState.vertices = some vs ∧ vs.length = 16 ∧
      (∀ v ∈ vs, inUnitCube v) ∧
      _createGeometry sampleState = some s' ∧ s'._model = some m' ∧
      (∀ sp ∈ m'.spheres VERTEX_MATERIAL_ID, inUnitCube sp.center) ∧
      (∀ c ∈ m'.cylinders EDGE_MATERIAL_ID, inUnitCube c.first ∧ inUnitCube c.second) ∧
      (∀ v ∈ (m'.trianglesMeshes FACE_MATERIAL_ID).vertices, inUnitCube v) :=
  ⟨sampleState_nonneg, sampleState_lt_one,
    (computeCoordinates_convex sampleState ⟨1, 2, 3⟩ ⟨5, 6, 7⟩ ⟨0, 8, 0⟩ ⟨9, 9, 9⟩
      sampleState_nonneg sampleState_lt_one).2 sampleModel rfl⟩

/-- C18: the table `joints` has 32 pairs of indices below 16, none joining an
index to itself, pairwise distinct as unordered pairs, every slot 0..15 lying
in exactly 4 of them; so for any 16 vertices every read
`vertices[joints[i][k]]` of the cylinder loop and every read
`vertices[joints[i + k][0]]` of the mesh loop is in bounds, and the builder
returns. -/
theorem joints_well_formed (s : Basic4DPlugin) (m : Model) (vs : List Vector3f)
    (hvs : vs.length = 16) :
    joints.length = 32 ∧
    (∀ e ∈ joints, e.1 < 16 ∧ e.2 < 16) ∧
    (∀ e ∈ joints, e.1 ≠ e.2) ∧
    (joints.map unordered).Nodup ∧
    (∀ i, i < 16 → degree i = 4) ∧
    (∀ i, i < 32 → ∃ e t u, joints[i]? = some e ∧ vs[e.1]? = some t ∧ vs[e.2]? = some u) ∧
    (∀ i ∈ (List.range 8).map (fun k => 4 * k), ∀ k, k < 4 →
      ∃ e t, joints[i + k]? = some e ∧ vs[e.1]? = some t) ∧
    (s._model = some m → 0 ≤ s._angle → s._angle < 1 → ∃ s', _createGeometry s = some s') := by
  have hget : ∀ j, j < 16 → ∃ t, vs[j]? = some t := by
    intro j hj
    exact ⟨vs[j], List.getElem?_eq_getElem (by omega)⟩
  refine ⟨rfl, joints_bound, by decide, by decide, by decide, ?_, ?_, ?_⟩
  · intro i hi
    obtain ⟨e, he, h1, h2⟩ := joints_get i hi
    obtain ⟨t, ht⟩ := hget e.1 h1
    obtain ⟨u, hu⟩ := hget e.2 h2
    exact ⟨e, t, u, he, ht, hu⟩
  · intro i hi k hk
    simp only [List.mem_map, List.mem_range] at hi
    obtain ⟨g, hg, rfl⟩ := hi
    obtain ⟨e, he, h1, _⟩ := joints_get (4 * g + k) (by omega)
    obtain ⟨t, ht⟩ := hget e.1 h1
    exact ⟨e, t, he, ht⟩
  · intro hm h0 h1
    exact ⟨_, createGeometry_eq s m hm h0 h1⟩

theorem joints_well_formed_witness :
    tesseract.length = 16 ∧ sampleState._model = some sampleModel ∧
    0 ≤ sampleState._angle ∧ sampleState._angle < 1 ∧
    (∀ i, i < 32 → ∃ e t u, joints[i]? = some e ∧ tesseract[e.1]? = some t ∧
      tesseract[e.2]? = some u) ∧
    ∃ s', _createGeometry sampleState = some s' :=
  ⟨rfl, rfl, sampleState_nonneg, sampleState_lt_one,
    (joints_well_formed sampleState sampleModel tesseract rfl).2.2.2.2.2.1,
    (joints_well_formed sampleState sampleModel tesseract rfl).2.2.2.2.2.2.2 rfl
      sampleState_nonneg sampleState_lt_one⟩

/-- C19: the index quadruples the mesh loop reads are, in order, (0,1,2,3),
(0,1,2,3), (4,5,6,7), (0,1,2,3), (4,5,6,7), (8,9,10,11), (8,9,10,11),
(12,13,14,15), four distinct ones; the mesh vertices are the computed vertices
at these indices, so for a phase in [0,1) mesh vertex groups 0, 1, 3 coincide,
groups 2, 4 coincide and groups 5, 6 coincide. -/
theorem face_quadruples_repeat (s : Basic4DPlugin) (m : Model) (hm : s._model = some m)
    (h0 : 0 ≤ s._angle) (h1 : s._angle < 1) :
    faceQuadruples = [(0, 1, 2, 3), (0, 1, 2, 3), (4, 5, 6, 7), (0, 1, 2, 3), (4, 5, 6, 7),
      (8, 9, 10, 11), (8, 9, 10, 11), (12, 13, 14, 15)] ∧
    faceQuadruples.dedup.length = 4 ∧
    ∃ s' m' vs, _createGeometry s = some s' ∧ s'._model = some m' ∧ s.vertices = some vs ∧
      (m'.trianglesMeshes FACE_MATERIAL_ID).vertices =
        faceQuadruples.flatMap (fun q => [vs.getD q.1 default, vs.getD q.2.1 default,
          vs.getD q.2.2.1 default, vs.getD q.2.2.2 default]) ∧
      ∀ k, k < 4 →
        (m'.trianglesMeshes FACE_MATERIAL_ID).vertices[k]? =
          (m'.trianglesMeshes FACE_MATERIAL_ID).vertices[4 + k]? ∧
        (m'.trianglesMeshes FACE_MATERIAL_ID).vertices[k]? =
          (m'.trianglesMeshes FACE_MATERIAL_ID).vertices[12 + k]? ∧
        (m'.trianglesMeshes FACE_MATERIAL_ID).vertices[8 + k]? =
          (m'.trianglesMeshes FACE_MATERIAL_ID).vertices[16 + k]? ∧
        (m'.trianglesMeshes FACE_MATERIAL_ID).vertices[20 + k]? =
          (m'.trianglesMeshes FACE_MATERIAL_ID).vertices[24 + k]? := by
  refine ⟨by decide, by decide, _, _, _, createGeometry_eq s m hm h0 h1, rfl,
    vertices_eq s h0 h1, ?_, ?_⟩
  · rw [built_mesh]
    rfl
  · intro k hk
    obtain ⟨a, b, c, d⟩ := joints_first k hk
    simp only [built_mesh, meshVertexList_get, a.symm, b.symm, c.symm, d.symm, and_self]

theorem face_quadruples_repeat_witness :
    sampleState._model = some sampleModel ∧ 0 ≤ sampleState._angle ∧
    sampleState._angle < 1 ∧
    ∃ s' m' vs, _createGeometry sampleState = some s' ∧ s'._model = some m' ∧
      sampleState.vertices = some vs ∧
      (m'.trianglesMeshes FACE_MATERIAL_ID).vertices =
        faceQuadruples.flatMap (fun q => [vs.getD q.1 default, vs.getD q.2.1 default,
          vs.getD q.2.2.1 default, vs.getD q.2.2.2 default]) :=
  ⟨rfl, sampleState_nonneg, sampleState_lt_one,
    (face_quadruples_repeat sampleState sampleModel rfl sampleState_nonneg
      sampleState_lt_one).2.2.elim fun s' h1 => h1.elim fun m' h2 => h2.elim fun vs h3 =>
        ⟨s', m', vs, h3.1, h3.2.1, h3.2.2.1, h3.2.2.2.1⟩⟩

end Basic4DPlugin
